import Mathlib

/-!
# PRISM Validator — a shallow embedding of `src/app.py`'s validation engine

This file embeds the validation logic of the PRISM Validator (CDC seasonal
vaccination aggregate data validation, `src/app.py`) in Lean 4 and proves the
behavioural claims about it.

Modelling conventions:

* A parsed CSV file (`pandas.DataFrame`) is a `Dataset`: an ordered list of
  column names and an ordered list of rows, each row an ordered list of cells.
  A cell is `Option String`: `none` models a missing value (pandas `NaN`,
  i.e. `pd.isna`), `some s` models a present value whose `str()` rendering is
  `s`.  Cell access by column label takes the first column of that name, as
  pandas does for unique labels.
* Python strings are modelled over their character lists.  `str.strip`,
  `str.lower`, `str.upper` are modelled by structurally recursive functions
  over the character list (`pyStrip`, `pyLower`, `pyUpper`); this is faithful
  on the ASCII fragment the templates and checks use.
* `float(s)` / `int(float(s))` are modelled exactly on the decimal fragment of
  Python's float grammar (optional sign, digits, optional point and fraction,
  optional exponent), with exact rational semantics; this is faithful whenever
  the parsed magnitudes are below 2^53, where IEEE-754 conversion of a decimal
  integer is exact.  `inf`/`nan` literals, digit-group underscores and
  non-ASCII digits are outside the modelled fragment.  Failure of `float()` /
  a raised exception is `none`.
* Comparisons such as `num / pop > 1.0` on integers (with `pop > 0`) are
  modelled by the exact integer comparison, which agrees with the IEEE-754
  computation for the magnitudes above.
* File I/O (reading bytes from disk, encodings) is not modelled: the embedded
  orchestrator `validate_prism_file` starts from the already-parsed `Dataset`,
  mirroring everything from `app.py`'s `df.empty` check on.
* The process-wide mutable configuration (`load_config`) is modelled by
  passing the value returned by each of the two `load_config()` call sites in
  the engine (one in `validate_filename`, one in `validate_season_mismatch`)
  as explicit arguments `cfg1`, `cfg2`.
-/

/-! ## Python string primitives -/

/-- Python `sub in hay` (contiguous substring occurrence) on character lists. -/
def charsContain (sub : List Char) : List Char → Bool
  | [] => sub.isEmpty
  | c :: rest => sub.isPrefixOf (c :: rest) || charsContain sub rest

/-- Python `sub in hay` for strings. -/
def pyIn (sub hay : String) : Bool := charsContain sub.data hay.data

/-- Python `s.strip()` (ASCII-whitespace fragment): drop whitespace from both
ends.  (Implemented over the character list so that the kernel can evaluate
it; `String.trim` computes the same characters.) -/
def pyStrip (s : String) : String :=
  ⟨((s.data.dropWhile Char.isWhitespace).reverse.dropWhile Char.isWhitespace).reverse⟩

/-- Python `s.lower()` (ASCII fragment). -/
def pyLower (s : String) : String := ⟨s.data.map Char.toLower⟩

/-- Python `s.upper()` (ASCII fragment). -/
def pyUpper (s : String) : String := ⟨s.data.map Char.toUpper⟩

/-- Python `sep.join(xs)`. -/
def joinSep (sep : String) : List String → String
  | [] => ""
  | [x] => x
  | x :: y :: rest => x ++ sep ++ joinSep sep (y :: rest)

/-- One scan of Python `s.replace(pat, '')`: delete every (leftmost,
non-overlapping) occurrence of `pat`. -/
def replaceDelFuel (pat : List Char) : Nat → List Char → List Char
  | 0, cs => cs
  | _ + 1, [] => []
  | fuel + 1, c :: rest =>
    if pat.isPrefixOf (c :: rest) ∧ pat ≠ [] then
      replaceDelFuel pat fuel (rest.drop (pat.length - 1))
    else
      c :: replaceDelFuel pat fuel rest

/-- Deletion of every occurrence, with just enough fuel (each step consumes at
least one character, so `cs.length` steps always finish the scan). -/
def replaceDel (pat : List Char) (cs : List Char) : List Char :=
  replaceDelFuel pat cs.length cs

/-- Python `s.replace(pat, '')` for strings. -/
def pyReplaceDel (s pat : String) : String := ⟨replaceDel pat.data s.data⟩

/-- Python `s.startswith(p)`. -/
def pyStartsWith (s p : String) : Bool := p.data.isPrefixOf s.data

/-- Python `s.endswith(p)`. -/
def pyEndsWith (s p : String) : Bool := p.data.reverse.isPrefixOf s.data.reverse

/-- Python `s.isdigit()` (ASCII fragment): nonempty and all digits. -/
def pyIsDigit (s : String) : Bool := !s.data.isEmpty && s.data.all Char.isDigit

/-- Value of a list of ASCII decimal digit characters. -/
def digitsToNat (ds : List Char) : Nat :=
  ds.foldl (fun a c => a * 10 + (c.toNat - 48)) 0

/-! ## Python `float` / `int(float(·))` on the decimal fragment

A parsed decimal literal with exact value `(-1)^neg * mant * 10^exp`. -/

structure DecNum where
  neg : Bool
  mant : Nat
  exp : Int
deriving Repr, DecidableEq

/-- Parse the exponent part (after `e`/`E`): optional sign then one or more
digits, consuming the whole rest of the string. -/
def parseExpPart (cs : List Char) : Option Int :=
  let (sgn, cs) := match cs with
    | '-' :: r => (true, r)
    | '+' :: r => (false, r)
    | r => (false, r)
  let (ds, rest) := cs.span Char.isDigit
  if ds.isEmpty ∨ ¬ rest.isEmpty then none
  else some (if sgn then -(digitsToNat ds : Int) else (digitsToNat ds : Int))

/-- Parse the body of a Python float literal (sign and surrounding whitespace
already removed). -/
def parseDecBody (cs : List Char) : Option (Nat × Int) :=
  let (ip, cs) := cs.span Char.isDigit
  let (fp, cs) := match cs with
    | '.' :: r => r.span Char.isDigit
    | r => ([], r)
  if ip.isEmpty ∧ fp.isEmpty then none
  else
    let mant := digitsToNat (ip ++ fp)
    let scale : Int := -(fp.length : Int)
    match cs with
    | [] => some (mant, scale)
    | 'e' :: r => (parseExpPart r).map (fun e => (mant, scale + e))
    | 'E' :: r => (parseExpPart r).map (fun e => (mant, scale + e))
    | _ => none

/-- Python `float(s)` on the decimal fragment (see header comment):
`none` models a raised `ValueError`. -/
def pyFloat (s : String) : Option DecNum :=
  let cs := (pyStrip s).data
  let (neg, cs) := match cs with
    | '-' :: r => (true, r)
    | '+' :: r => (false, r)
    | r => (false, r)
  (parseDecBody cs).map (fun (m, e) => ⟨neg, m, e⟩)

/-- Exact truncation toward zero of a parsed decimal: Python `int(float(s))`. -/
def decTrunc (d : DecNum) : Int :=
  let n : Int :=
    if d.exp ≥ 0 then (d.mant : Int) * (10 : Int) ^ d.exp.toNat
    else ((d.mant / 10 ^ d.exp.natAbs : Nat) : Int)
  if d.neg then -n else n

/-- Whether the parsed decimal denotes an integer (`float_val == int(float_val)`). -/
def decIsInt (d : DecNum) : Bool :=
  d.exp ≥ 0 || d.mant % 10 ^ d.exp.natAbs == 0

/-- Python `int(float(s))`; `none` models a raised exception. -/
def pyIntFloat (s : String) : Option Int := (pyFloat s).map decTrunc

/-- Python `'{:,}'.format` digit grouping, on a reversed digit list. -/
def commaGroupRev : Nat → List Char → List Char
  | _, [] => []
  | i, c :: rest =>
    if i ≠ 0 ∧ i % 3 == 0 then ',' :: c :: commaGroupRev (i + 1) rest
    else c :: commaGroupRev (i + 1) rest

/-- Python `f'{n:,}'` for naturals. -/
def commaFmtNat (n : Nat) : String :=
  ⟨(commaGroupRev 0 (toString n).data.reverse).reverse⟩

/-- Python `f'{n:,}'` for integers. -/
def commaFmtInt (n : Int) : String :=
  if n < 0 then "-" ++ commaFmtNat n.natAbs else commaFmtNat n.natAbs

/-! ## Data model -/

/-- One parsed CSV data row: one cell per column, `none` = missing (`NaN`). -/
abbrev Row := List (Option String)

/-- A parsed tabular file (models the `pandas.DataFrame` the checks receive). -/
structure Dataset where
  columns : List String
  rows : List Row
deriving Repr, DecidableEq

/-- A single validation error (`ValidationResult.add_error` record). -/
structure VError where
  row : Nat
  field : String
  message : String
deriving Repr, DecidableEq

/-- Terminal validation status. -/
inductive VStatus
  | pending
  | passed
  | failed
deriving Repr, DecidableEq

/-- The expected-submission-period configuration (`load_config()` result). -/
structure Config where
  expectedYear : Int
  expectedMonth : String
deriving Repr, DecidableEq

/-- The fields of `ValidationResult` the engine computes (bookkeeping fields
`submission_id`/`timestamp` are I/O and not modelled). -/
structure VResult where
  status : VStatus
  reportType : Option String
  errors : List VError
  rowCount : Nat
  season : Option String
deriving Repr, DecidableEq

/-- Python `col in row.index` — the column exists in the frame. -/
def colIn (cols : List String) (c : String) : Bool := cols.contains c

/-- `row[col]` combined with `pd.notna`: `some v` iff the column exists and the
cell holds a value. -/
def getCell (cols : List String) (row : Row) (c : String) : Option String :=
  match cols.findIdx? (· == c) with
  | none => none
  | some i =>
    match row.get? i with
    | none => none
    | some v => v

/-- `int(float(row[col]))` when the column exists and the cell is present and
parses; `none` otherwise. -/
def cellInt (cols : List String) (row : Row) (c : String) : Option Int :=
  (getCell cols row c).bind pyIntFloat

/-- A whole column of a `Dataset` (`df[col].tolist()`). -/
def colCells (d : Dataset) (c : String) : List (Option String) :=
  d.rows.map (fun r => getCell d.columns r c)

/-- `df.empty`: some axis has length 0. -/
def dsEmpty (d : Dataset) : Bool := d.rows.isEmpty || d.columns.isEmpty

/-! ## Template definitions (schema registry constants from `app.py`) -/

/-- `COVID_COLUMNS`. -/
def COVID_COLUMNS : List String := [
  "Season", "Month", "Vax date",
  "6 months-23 months DOB range", "6 months-23 months numerator", "6 months-23 months population",
  "2-4 years DOB range", "2-4 years numerator", "2-4 years population",
  "5-8 years DOB range", "5-8 years numerator", "5-8 years population",
  "9-12 years DOB range", "9-12 years numerator", "9-12 years population",
  "13-17 years DOB range", "13-17 years numerator", "13-17 years population",
  "18-49 years DOB range", "18-49 years numerator", "18-49 years population",
  "50-64 years DOB range ", "50-64 years numerator", "50-64 years population",
  "65+ years DOB range ", "65+ years numerator", "65+ years population",
  "6 months to 17 years DOB range", "6 months to 17 years numerator", "6 months to 17 years population",
  "Overall (all ages) DOB range", "Overall numerator (all ages)", "Overall (all ages) population",
  "All adults (+18)  DOB range ", "All adults numerator (+18)", "All adults (+18) population",
  "Report Due Date "]

/-- `FLU_COLUMNS`. -/
def FLU_COLUMNS : List String := [
  "Flu Season", "Month", "Vax date",
  "6 months-23 months  DOB range", "6 months-23 months numerator", "6 months-23 months population",
  "2-4 years DOB range", "2-4 years numerator", "2-4 years population",
  "5-8 years DOB range", "5-8 years numerator", "5-8 years population",
  "9-12 years DOB range", "9-12 years numerator", "9-12 years population",
  "13-17 years DOB range", "13-17 years numerator", "13-17 years population",
  "18-49 years DOB range", "18-49 years numerator", "18-49 years population",
  "50-64 years DOB range ", "50-64 years numerator", "50-64 years population",
  "65+ years DOB range ", "65+ years numerator", "65+ years population",
  "6 months to 17 years DOB range", "6 months to 17 years numerator", "6 months to 17 years population",
  "All adults (+18)  DOB range ", "All adults numerator (+18)", "All adults (+18) population",
  "Overall (all ages) DOB range", "Overall numerator (all ages)", "Overall (all ages) population",
  "Report Due Date "]

/-- `RSV_COLUMNS`. -/
def RSV_COLUMNS : List String := [
  "RSV Season", "Month",
  "vax_date_0-7 months", "vax_date_8-19 months", "vax_date_60+ years",
  "0 months-7 months DOB range", "0 months-7 months numerator", "0 months-7 months population",
  "8 months-19 months DOB range", "8 months-19 months numerator", "8 months-19 months population",
  "50-59 years DOB range ", "50-59 years numerator", "50-59 years population",
  "60-74 years DOB range ", "60-74 years numerator", "60-74 years population",
  "75+ years DOB range ", "75+ years numerator", "75+ years population",
  "60+ years DOB range ", "60+ years numerator", "60+ years population",
  "Report Due Date "]

/-- `VALID_MONTHS` (data-month labels in season order). -/
def VALID_MONTHS : List String :=
  ["Jul", "Aug", "Sept", "Oct", "Nov", "Dec", "Jan", "Feb", "Mar", "Apr", "May", "Jun"]

/-- `VALID_SITE_CODES` (IIS grantee code registry, in source order). -/
def VALID_SITE_CODES : List (String × String) := [
  ("AKA", "Alaska"), ("ALA", "Alabama"), ("ARA", "Arkansas"), ("ASA", "American Samoa"),
  ("AZA", "Arizona"), ("BAA", "NYC"), ("CAA", "California"), ("CHA", "Chicago"),
  ("COA", "Colorado"), ("CTA", "Connecticut"), ("DCA", "DC"), ("DEA", "Delaware"),
  ("FLA", "Florida"), ("FMA", "Micronesia"), ("GAA", "Georgia"), ("GUA", "Guam"),
  ("HIA", "Hawaii"), ("IAA", "Iowa"), ("IDA", "Idaho"), ("ILA", "Illinois"),
  ("INA", "Indiana"), ("KSA", "Kansas"), ("KYA", "Kentucky"), ("LAA", "Louisiana"),
  ("MAA", "Massachusetts"), ("MDA", "Maryland"), ("MEA", "Maine"), ("MHA", "Marshall Islands"),
  ("MIA", "Michigan"), ("MNA", "Minnesota"), ("MOA", "Missouri"), ("MPA", "N Mariana Islands"),
  ("MSA", "Mississippi"), ("MTA", "Montana"), ("NCA", "North Carolina"), ("NDA", "North Dakota"),
  ("NEA", "Nebraska"), ("NHA", "New Hampshire"), ("NJA", "New Jersey"), ("NMA", "New Mexico"),
  ("NVA", "Nevada"), ("NYA", "New York State"), ("OHA", "Ohio"), ("OKA", "Oklahoma"),
  ("ORA", "Oregon"), ("PAA", "Pennsylvania"), ("PHA", "Philadelphia"), ("PRA", "Puerto Rico"),
  ("RIA", "Rhode Island"), ("RPA", "Palau"), ("SCA", "South Carolina"), ("SDA", "South Dakota"),
  ("TBA", "San Antonio"), ("THA", "Houston"), ("TNA", "Tennessee"), ("TXA", "Texas"),
  ("UTA", "Utah"), ("VAA", "Virginia"), ("VIA", "Virgin Islands"), ("VTA", "Vermont"),
  ("WAA", "Washington State"), ("WIA", "Wisconsin"), ("WVA", "West Virginia"), ("WYA", "Wyoming")]

/-- The registry's key set, in order (`VALID_SITE_CODES` dict keys). -/
def siteCodeKeys : List String := VALID_SITE_CODES.map Prod.fst

/-- `FILENAME_MONTHS` (3-letter month codes allowed in filenames). -/
def FILENAME_MONTHS : List String :=
  ["JAN", "FEB", "MAR", "APR", "MAY", "JUN", "JUL", "AUG", "SEP", "OCT", "NOV", "DEC"]

/-- `MONTH_MAP` (filename month code to data-month label). -/
def MONTH_MAP : List (String × String) := [
  ("JAN", "Jan"), ("FEB", "Feb"), ("MAR", "Mar"), ("APR", "Apr"), ("MAY", "May"), ("JUN", "Jun"),
  ("JUL", "Jul"), ("AUG", "Aug"), ("SEP", "Sept"), ("OCT", "Oct"), ("NOV", "Nov"), ("DEC", "Dec")]

/-- Python `MONTH_MAP.get(m, m)`. -/
def monthMapGet (m : String) : String :=
  match MONTH_MAP.lookup m with
  | some v => v
  | none => m

/-! ## Template detection -/

/-- `detect_template_type`: classify a dataset from its trimmed column names. -/
def detect_template_type (d : Dataset) : Option String :=
  let columns := d.columns.map pyStrip
  if columns.contains "RSV Season" || columns.contains "vax_date_0-7 months" then some "RSV"
  else if columns.contains "Flu Season" then some "FLU"
  else if columns.contains "Season" && !columns.contains "Flu Season" then some "COVID"
  else none

/-- `get_expected_columns` (on the orchestrator's `Option String` report type). -/
def get_expected_columns (rt : Option String) : List String :=
  match rt with
  | some "COVID" => COVID_COLUMNS
  | some "FLU" => FLU_COLUMNS
  | some "RSV" => RSV_COLUMNS
  | _ => []

/-! ## Filename validation -/

/-- Match the 11-character tail `SSS_YYYYMMM` of a filename pattern
(`([A-Z]{3})_(\d{4})([A-Z]{3})` under `re.IGNORECASE`, ASCII fragment). -/
def matchNameTail (cs : List Char) : Option (String × String × String) :=
  match cs with
  | [a, b, c, u, d1, d2, d3, d4, m1, m2, m3] =>
    if a.isAlpha && b.isAlpha && c.isAlpha && u == '_' &&
       d1.isDigit && d2.isDigit && d3.isDigit && d4.isDigit &&
       m1.isAlpha && m2.isAlpha && m3.isAlpha then
      some (⟨[a, b, c]⟩, ⟨[d1, d2, d3, d4]⟩, ⟨[m1, m2, m3]⟩)
    else none
  | _ => none

/-- `re.match(r'^Prefix_([A-Z]{3})_(\d{4})([A-Z]{3})$', name, re.IGNORECASE)`
for a fixed literal prefix: the captured (site, year, month) groups. -/
def matchPrism (pre : String) (name : String) : Option (String × String × String) :=
  if name.data.length == (pre.data ++ ['_']).length + 11 then
    if (name.data.take (pre.data ++ ['_']).length).map Char.toLower ==
        (pre.data ++ ['_']).map Char.toLower then
      matchNameTail (name.data.drop (pre.data ++ ['_']).length)
    else none
  else none

/-- The three grammar patterns tried in source order (`covid_pattern`,
`flu_pattern`, `rsv_pattern`), with the matching pattern's report type. -/
def tryMatchName (name : String) : Option (String × String × String × String) :=
  match matchPrism "MonthlyAllCOVID" name with
  | some (s, y, m) => some ("COVID", s, y, m)
  | none =>
    match matchPrism "MonthlyFlu" name with
    | some (s, y, m) => some ("FLU", s, y, m)
    | none =>
      match matchPrism "MonthlyRSV" name with
      | some (s, y, m) => some ("RSV", s, y, m)
      | none => none

/-- `_get_filename_prefix` on a plain report-type string. -/
def prefixForTypeStr (t : String) : String :=
  if t == "COVID" then "MonthlyAllCOVID"
  else if t == "FLU" then "MonthlyFlu"
  else if t == "RSV" then "MonthlyRSV"
  else "MonthlyAllCOVID"

/-- `_get_filename_prefix` on the orchestrator's optional report type
(`prefixes.get(report_type, 'MonthlyAllCOVID')`). -/
def prefixForType (rt : Option String) : String :=
  match rt with
  | some t => prefixForTypeStr t
  | none => "MonthlyAllCOVID"

/-- The `wrong_prefixes` table of `_detect_filename_issues`. -/
def wrongPrefixes : List (String × String) := [
  ("COVID_", "Should start with \"MonthlyAllCOVID_\""),
  ("MONTHLYCOVID_", "Should be \"MonthlyAllCOVID_\" (note the \"All\")"),
  ("MONTHLY_COVID_", "Should be \"MonthlyAllCOVID_\" (no space/underscore)"),
  ("FLU_", "Should start with \"MonthlyFlu_\""),
  ("MONTHLYFLU_", "Use \"MonthlyFlu_\" (check capitalization)"),
  ("RSV_", "Should start with \"MonthlyRSV_\""),
  ("MONTHLYRSV_", "Use \"MonthlyRSV_\" (check capitalization)")]

/-- The `unwanted` version-marker tokens of `_detect_filename_issues`. -/
def unwantedMarkers : List String :=
  ["DRAFT", "FINAL", "COPY", "(1)", "(2)", "_V2", "_V3", "_NEW", "_OLD", "REVISED", "UPDATED"]

/-- The `wrong_months` table of `_detect_filename_issues`. -/
def wrongMonths : List (String × String) := [
  ("SEPT", "Use \"SEP\" not \"SEPT\" for September"),
  ("JUNE", "Use \"JUN\" not \"JUNE\" for June"),
  ("JULY", "Use \"JUL\" not \"JULY\" for July"),
  ("JANUARY", "Use \"JAN\" not \"JANUARY\""),
  ("FEBRUARY", "Use \"FEB\" not \"FEBRUARY\"")]

/-- First `wrong_prefixes` entry matching the uppercased name (the source loop
breaks after the first hit). -/
def firstWrongPre (nameUpper : String) : List (String × String) → List String
  | [] => []
  | (p, msg) :: rest =>
    if pyStartsWith nameUpper p then [msg] else firstWrongPre nameUpper rest

/-- One window of `re.search(r'_([A-Z]{2})_', name_upper)`: does the pattern
match at this start position? -/
def twoLetterHere : List Char → Option (Char × Char)
  | '_' :: a :: b :: '_' :: _ =>
    if a.isUpper && b.isUpper then some (a, b) else none
  | _ => none

/-- The scan itself: try each start position left to right. -/
def searchTwoLetter : List Char → Option (Char × Char)
  | [] => none
  | c :: rest =>
    match twoLetterHere (c :: rest) with
    | some r => some r
    | none => searchTwoLetter rest

/-- `_detect_filename_issues`. -/
def detectFilenameIssues (filename : String) : List String :=
  let nameUpper := pyUpper filename
  let spaceIssue :=
    if pyIn " " filename then ["Filename contains spaces. Use underscores instead."] else []
  let dashIssue :=
    if pyIn "-" filename ∧ ¬ pyIn "_" filename then
      ["Use underscores (_) not dashes (-) to separate parts."] else []
  let prefixIssue := firstWrongPre nameUpper wrongPrefixes
  let unwantedIssues := unwantedMarkers.filterMap (fun w =>
    if pyIn w nameUpper then
      some ("Remove \"" ++ w ++ "\" from filename. Submit clean filename without version markers.")
    else none)
  let monthIssues := wrongMonths.filterMap (fun (w, msg) =>
    if pyIn w nameUpper ∧ ¬ pyIn (w ++ "E") nameUpper then some msg else none)
  let twoLetterIssue :=
    match searchTwoLetter nameUpper.data with
    | some (a, b) =>
      let state : String := ⟨[a, b]⟩
      if siteCodeKeys.contains (state ++ "A") then
        ["Use 3-letter IIS code \"" ++ state ++ "A\" instead of 2-letter \"" ++ state ++ "\""]
      else []
    | none => []
  spaceIssue ++ dashIssue ++ prefixIssue ++ unwantedIssues ++ monthIssues ++ twoLetterIssue

/-- The `state_to_site` fallback table of `_suggest_filename`, in source order. -/
def stateToSite : List (String × String) := [
  ("GA", "GAA"), ("NY", "NYA"), ("CA", "CAA"), ("TX", "TXA"), ("FL", "FLA"),
  ("NC", "NCA"), ("PA", "PAA"), ("IL", "ILA"), ("OH", "OHA"), ("MI", "MIA"),
  ("AK", "AKA"), ("AL", "ALA"), ("AR", "ARA"), ("AZ", "AZA"), ("CO", "COA"),
  ("CT", "CTA"), ("DE", "DEA"), ("HI", "HIA"), ("IA", "IAA"), ("ID", "IDA"),
  ("IN", "INA"), ("KS", "KSA"), ("KY", "KYA"), ("LA", "LAA"), ("MA", "MAA"),
  ("MD", "MDA"), ("ME", "MEA"), ("MN", "MNA"), ("MO", "MOA"), ("MS", "MSA"),
  ("MT", "MTA"), ("NE", "NEA"), ("NH", "NHA"), ("NJ", "NJA"), ("NM", "NMA"),
  ("NV", "NVA"), ("OK", "OKA"), ("OR", "ORA"), ("RI", "RIA"), ("SC", "SCA"),
  ("SD", "SDA"), ("TN", "TNA"), ("UT", "UTA"), ("VA", "VAA"), ("VT", "VTA"),
  ("WA", "WAA"), ("WI", "WIA"), ("WV", "WVA"), ("WY", "WYA")]

/-- First registry site code occurring as a substring of the uppercased name. -/
def firstSiteCodeIn (upperName : String) : List String → Option String
  | [] => none
  | code :: rest =>
    if pyIn code upperName then some code else firstSiteCodeIn upperName rest

/-- First `state_to_site` entry whose 2-letter state token appears bounded by
underscores / string edges. -/
def firstStateCodeIn (upperName : String) : List (String × String) → Option String
  | [] => none
  | (state, code) :: rest =>
    if pyIn ("_" ++ state ++ "_") upperName ∨ pyStartsWith upperName (state ++ "_") ∨
       pyIn ("_" ++ state ++ ".") upperName then
      some code
    else firstStateCodeIn upperName rest

/-- `_suggest_filename`. -/
def suggestFilename (originalFilename : String) (detectedType : Option String)
    (expectedYear : Int) (expectedMonth : String) : String :=
  let upperName := pyUpper originalFilename
  let siteCode :=
    match firstSiteCodeIn upperName siteCodeKeys with
    | some code => code
    | none =>
      match firstStateCodeIn upperName stateToSite with
      | some code => code
      | none => "XXX"
  prefixForType detectedType ++ "_" ++ siteCode ++ "_" ++ toString expectedYear ++
    expectedMonth ++ ".csv"

/-- Strip the extension: `filename.replace('.csv', '').replace('.CSV', '')`. -/
def stripCsvExt (filename : String) : String :=
  pyReplaceDel (pyReplaceDel filename ".csv") ".CSV"

/-- The single file-level error of `validate_filename`'s no-match branch. -/
def noMatchFilenameError (filename : String) (rt : Option String) (cfg : Config) : VError :=
  let issues := detectFilenameIssues filename
  let suggested := suggestFilename filename rt cfg.expectedYear cfg.expectedMonth
  let issuePart :=
    if issues.isEmpty then "" else "Issues found: " ++ joinSep " " issues ++ " "
  ⟨0, "filename",
    "Incorrect filename format. You uploaded: \"" ++ filename ++ "\". " ++ issuePart ++
      "Currently accepting: " ++ toString cfg.expectedYear ++ " " ++ cfg.expectedMonth ++
      " submissions. " ++ "Correct format: " ++ suggested⟩

/-- The checks `validate_filename` performs after the grammar matched,
with the captured groups. -/
def matchedFilenameChecks (detectedType siteRaw yearStr monRaw : String)
    (rt : Option String) (d : Dataset) (cfg : Config) : List VError :=
  let siteCode := pyUpper siteRaw
  let month := pyUpper monRaw
  let siteErrs :=
    if ¬ siteCodeKeys.contains siteCode then
      [⟨0, "filename", "Invalid site code: \"" ++ siteCode ++
        "\". Use your 3-letter IIS grantee code (e.g., GAA for Georgia, NYA for New York)"⟩]
    else []
  let typeErrs :=
    match rt with
    | some t =>
      if t ≠ "" ∧ detectedType ≠ t then
        [⟨0, "filename", "Filename says " ++ detectedType ++ " but data looks like " ++ t ++
          ". " ++ "Rename to: " ++ prefixForTypeStr t ++ "_" ++ siteCode ++ "_" ++
          toString cfg.expectedYear ++ cfg.expectedMonth ++ ".csv"⟩]
      else []
    | none => []
  let yearInt : Int := (digitsToNat yearStr.data : Int)
  let yearErrs :=
    if yearInt < 2020 ∨ yearInt > 2030 then
      [⟨0, "filename", "Year in filename (" ++ yearStr ++ ") seems invalid"⟩]
    else []
  if ¬ FILENAME_MONTHS.contains month then
    siteErrs ++ typeErrs ++ yearErrs ++
      [⟨0, "filename", "Invalid month: \"" ++ month ++
        "\". Use 3-letter format: JAN, FEB, MAR, APR, MAY, JUN, JUL, AUG, SEP, OCT, NOV, DEC"⟩]
  else
    let periodErrs :=
      if yearStr ≠ toString cfg.expectedYear ∨ month ≠ cfg.expectedMonth then
        [⟨0, "filename", "Wrong submission period. You submitted " ++ yearStr ++ " " ++ month ++
          " data, but currently accepting " ++ toString cfg.expectedYear ++ " " ++
          cfg.expectedMonth ++ " submissions. " ++ "Rename to: " ++
          prefixForTypeStr detectedType ++ "_" ++ siteCode ++ "_" ++
          toString cfg.expectedYear ++ cfg.expectedMonth ++ ".csv"⟩]
      else []
    let dataMonthErrs :=
      if colIn d.columns "Month" then
        let dataMonth := monthMapGet month
        let monthsInData :=
          (d.rows.filterMap (fun r => getCell d.columns r "Month")).map pyStrip
        if ¬ monthsInData.contains dataMonth then
          [⟨0, "filename", "Month in filename (" ++ month ++
            ") not found in data. Data contains: " ++
            joinSep ", " (monthsInData.take 3) ++ "..."⟩]
        else []
      else []
    siteErrs ++ typeErrs ++ yearErrs ++ periodErrs ++ dataMonthErrs

/-- `validate_filename` (the `load_config()` it performs is the `cfg` argument). -/
def validate_filename (filename : String) (rt : Option String) (d : Dataset)
    (cfg : Config) : List VError :=
  let name := stripCsvExt filename
  match tryMatchName name with
  | none => [noMatchFilenameError filename rt cfg]
  | some (detectedType, site, year, month) =>
    matchedFilenameChecks detectedType site year month rt d cfg

/-! ## Structure validation -/

/-- The `old_covid_columns` list of `detect_old_template`. -/
def oldCovidColumns : List String :=
  ["COVID Season", "6 months-4 years numerator", "5-11 years numerator", "12-17 years numerator"]

/-- The `old_flu_columns` list of `detect_old_template`. -/
def oldFluColumns : List String := ["Season", "6 months-4 years numerator"]

/-- The `old_rsv_columns` list of `detect_old_template`. -/
def oldRsvColumns : List String := ["60-64 years numerator", "65-74 years numerator"]

/-- The deprecated-column list `detect_old_template` scans for a report type. -/
def oldColumnsFor (rt : Option String) : List String :=
  match rt with
  | some "COVID" => oldCovidColumns
  | some "FLU" => oldFluColumns
  | some "RSV" => oldRsvColumns
  | _ => []

/-- First deprecated column whose lowercased name occurs in the
lowercased+trimmed actual columns (the per-type loop bodies of
`detect_old_template`). -/
def firstOldMatch (colsLower : List String) : List String → Option String
  | [] => none
  | oc :: rest =>
    if colsLower.contains (pyLower oc) then
      some ("Found old column \"" ++ oc ++ "\"")
    else firstOldMatch colsLower rest

/-- `detect_old_template`. -/
def detect_old_template (columns : List String) (rt : Option String) : Option String :=
  firstOldMatch (columns.map (fun c => pyStrip (pyLower c))) (oldColumnsFor rt)

/-- Python `s.replace(' ', '')`. -/
def removeSpaces (s : String) : String := pyReplaceDel s " "

/-- Count of equal characters at equal index (`zip` loop of `find_close_match`). -/
def eqAtIdxCount (a b : List Char) : Nat :=
  ((a.zip b).filter (fun p => p.1 == p.2)).length

/-- `find_close_match` with the source's default `threshold=0.8`: the loop over
candidates; within one candidate, in order: exact (case-insensitive, trimmed)
equality aborts the whole search with no match; space-stripped equality, then
position-similarity `matches / max_len >= 0.8` for both lengths `> 5`
(rendered exactly as `5 * matches >= 4 * max_len`), then substring containment
either way for both lengths `> 10`, return the candidate. -/
def findCloseGo (target : String) : List String → Option String
  | [] => none
  | cand :: rest =>
    let tl := pyStrip (pyLower target)
    let cl := pyStrip (pyLower cand)
    if tl == cl then none
    else if removeSpaces tl == removeSpaces cl then some cand
    else if tl.length > 5 ∧ cl.length > 5 ∧
        5 * eqAtIdxCount tl.data cl.data ≥ 4 * max tl.length cl.length then some cand
    else if tl.length > 10 ∧ cl.length > 10 ∧ (pyIn tl cl ∨ pyIn cl tl) then some cand
    else findCloseGo target rest

/-- `find_close_match`. -/
def find_close_match (target : String) (candidates : List String) : Option String :=
  findCloseGo target candidates

/-- The old-template error of `validate_structure`. -/
def oldTemplateError (m : String) : VError :=
  ⟨0, "template", "Old template detected: " ++ m ++
    ". Please download the current template from the Templates page."⟩

/-- The missing-column loop of `validate_structure`. -/
def missingColumnErrors (expectedStripped actualStripped : List String) : List VError :=
  expectedStripped.flatMap (fun expected =>
    if ¬ actualStripped.contains expected then
      match find_close_match expected actualStripped with
      | some closeMatch =>
        [⟨0, "structure", "Column typo? Found \"" ++ closeMatch ++ "\" but expected \"" ++
          expected ++ "\". Check spelling."⟩]
      | none => [⟨0, "structure", "Missing column: \"" ++ expected ++ "\""⟩]
    else [])

/-- The extra-column loop of `validate_structure`. -/
def extraColumnErrors (expectedStripped actualStripped : List String) : List VError :=
  actualStripped.flatMap (fun actual =>
    if ¬ expectedStripped.contains actual then
      if pyStartsWith actual "Unnamed:" ∨ actual = "" then
        [⟨0, "structure",
          "Extra blank column detected. Delete empty columns before exporting from Excel."⟩]
      else
        match find_close_match actual expectedStripped with
        | some closeMatch =>
          [⟨0, "structure", "Unexpected column \"" ++ actual ++ "\" - did you mean \"" ++
            closeMatch ++ "\"?"⟩]
        | none =>
          [⟨0, "structure", "Unexpected column: \"" ++ actual ++
            "\". This column is not in the PRISM template."⟩]
    else [])

/-- The blank-row loop of `validate_structure` (`df.isna().all(axis=1)`). -/
def blankRowErrors (rows : List Row) : List VError :=
  rows.enum.flatMap (fun (idx, row) =>
    if row.all (fun cell => cell.isNone) then
      [⟨idx + 2, "structure", "Blank row detected. Delete empty rows before submitting."⟩]
    else [])

/-- The row-cardinality checks of `validate_structure`. -/
def rowCountErrors (n : Nat) : List VError :=
  if n > 0 ∧ n ≠ 12 then
    if n > 12 then
      [⟨0, "structure", "Too many rows: expected 12 months of data, got " ++ toString n ++
        " rows. " ++ "Remove extra rows (header row not counted)."⟩]
    else
      [⟨0, "structure", "Only " ++ toString n ++
        " months of data found. A complete season has 12 months (Jul-Jun). " ++
        "Partial submissions may be intentional if mid-season."⟩]
  else []

/-- `validate_structure`. -/
def validate_structure (d : Dataset) (rt : Option String) : List VError :=
  let expectedCols := get_expected_columns rt
  let actualCols := d.columns
  match detect_old_template actualCols rt with
  | some m => [oldTemplateError m]
  | none =>
    let countErrs :=
      if actualCols.length ≠ expectedCols.length then
        [⟨0, "structure", "Column count mismatch: expected " ++
          toString expectedCols.length ++ " columns, got " ++ toString actualCols.length ++
          " columns. " ++ "Download the current template to see the correct format."⟩]
      else []
    let actualStripped := actualCols.map pyStrip
    let expectedStripped := expectedCols.map pyStrip
    countErrs ++ missingColumnErrors expectedStripped actualStripped ++
      extraColumnErrors expectedStripped actualStripped ++
      blankRowErrors d.rows ++ rowCountErrors d.rows.length

/-! ## Template integrity validation -/

/-- `validate_season_format`: `^(\d{4})-(\d{2})$` with consecutive years. -/
def validate_season_format (val : String) : Bool :=
  match (pyStrip val).data with
  | [a, b, c, d, '-', e, f] =>
    if a.isDigit && b.isDigit && c.isDigit && d.isDigit && e.isDigit && f.isDigit then
      digitsToNat [e, f] == (digitsToNat [a, b, c, d] + 1) % 100
    else false
  | _ => false

/-- `validate_date_format`: `^\d{1,2}/\d{1,2}/\d{4}$`. -/
def validate_date_format (val : String) : Bool :=
  let cs := (pyStrip val).data
  let (d1, r1) := cs.span Char.isDigit
  match r1 with
  | '/' :: r2 =>
    let (d2, r3) := r2.span Char.isDigit
    match r3 with
    | '/' :: r4 =>
      let (d3, r5) := r4.span Char.isDigit
      decide (1 ≤ d1.length ∧ d1.length ≤ 2 ∧ 1 ≤ d2.length ∧ d2.length ≤ 2 ∧
        d3.length = 4) && r5.isEmpty
    | _ => false
  | _ => false

/-- The season column name `validate_template_integrity` uses for a report type. -/
def seasonColFor (rt : Option String) : String :=
  if rt == some "RSV" then "RSV Season"
  else if rt == some "FLU" then "Flu Season"
  else "Season"

/-- `validate_template_integrity`. -/
def validate_template_integrity (d : Dataset) (rt : Option String) : List VError :=
  let seasonCol := seasonColFor rt
  let seasonErrs :=
    if colIn d.columns seasonCol then
      (colCells d seasonCol).enum.flatMap (fun (idx, cell) =>
        match cell with
        | some val =>
          let valStr := pyStrip val
          if ¬ validate_season_format valStr then
            [⟨idx + 2, seasonCol, "Invalid season format: \"" ++ valStr ++
              "\". Expected YYYY-YY (e.g., 2025-26)"⟩]
          else []
        | none => [])
    else []
  let monthErrs :=
    if colIn d.columns "Month" then
      let months := colCells d "Month"
      let badMonthErrs := months.enum.flatMap (fun (idx, cell) =>
        match cell with
        | some m =>
          let monthStr := pyStrip m
          if ¬ VALID_MONTHS.contains monthStr then
            [⟨idx + 2, "Month", "Invalid month: \"" ++ monthStr ++
              "\". Expected one of: " ++ joinSep ", " VALID_MONTHS⟩]
          else []
        | none => [])
      let validInData := months.filterMap (fun cell =>
        match cell with
        | some m => if VALID_MONTHS.contains (pyStrip m) then some (pyStrip m) else none
        | none => none)
      let distinct := validInData.foldl
        (fun acc x => if acc.contains x then acc else acc ++ [x]) []
      let dupErrs :=
        if validInData.length ≠ distinct.length then
          [⟨0, "Month", "Duplicate months detected"⟩]
        else []
      badMonthErrs ++ dupErrs
    else []
  let dueDateCol :=
    if colIn d.columns "Report Due Date " then "Report Due Date " else "Report Due Date"
  let dueDateErrs :=
    if colIn d.columns dueDateCol then
      (colCells d dueDateCol).enum.flatMap (fun (idx, cell) =>
        match cell with
        | some val =>
          if ¬ validate_date_format val then
            [⟨idx + 2, "Report Due Date", "Invalid date format: \"" ++ val ++ "\""⟩]
          else []
        | none => [])
    else []
  seasonErrs ++ monthErrs ++ dueDateErrs

/-! ## Numerator / population validation -/

/-- Columns whose name contains `numerator` (case-insensitive). -/
def numColsOf (d : Dataset) : List String :=
  d.columns.filter (fun c => pyIn "numerator" (pyLower c))

/-- Columns whose name contains `population` (case-insensitive). -/
def popColsOf (d : Dataset) : List String :=
  d.columns.filter (fun c => pyIn "population" (pyLower c))

/-- The `placeholders` list of `validate_integer_value`. -/
def integerPlaceholders : List String :=
  ["tbd", "n/a", "na", "pending", "xxx", "test", "#n/a", "#ref!", "#value!", "#div/0!"]

/-- `validate_integer_value`: the error message, or `none` if the value is a
valid integer. -/
def validate_integer_value (val : String) : Option String :=
  let valStr := pyStrip val
  if integerPlaceholders.contains (pyLower valStr) then
    some ("Placeholder text not allowed: \"" ++ valStr ++ "\"")
  else if pyIn "," valStr then
    some ("Remove comma formatting: \"" ++ valStr ++ "\"")
  else if pyIn "e" (pyLower valStr) ∧ valStr.data.any Char.isDigit then
    some ("Scientific notation not allowed: \"" ++ valStr ++ "\"")
  else
    match pyFloat valStr with
    | some dec =>
      if ¬ decIsInt dec then
        some ("Decimal not allowed, must be integer: \"" ++ valStr ++ "\"")
      else none
    | none => some ("Invalid number: \"" ++ valStr ++ "\"")

/-- Per-cell checks of the `num_cols` loop in `validate_numerator_population`
(`ceiling` is 50 000 000 for numerators, 100 000 000 for populations). -/
def numericCellErrors (rowNum : Nat) (col : String) (cell : Option String)
    (ceiling : Int) : List VError :=
  match cell with
  | none => []
  | some val =>
    match validate_integer_value val with
    | some msg => [⟨rowNum, col, msg⟩]
    | none =>
      match pyIntFloat val with
      | some v =>
        (if v < 0 then [⟨rowNum, col, "Negative value not allowed: " ++ toString v⟩] else []) ++
        (if v > ceiling then
          [⟨rowNum, col, "Value suspiciously large: " ++ toString v⟩] else [])
      | none => []

/-- The `age_groups` pairing table of `validate_num_pop_pairs`. -/
def ageGroupPairs : List (String × String × String) := [
  ("6 months-23 months", "6 months-23 months numerator", "6 months-23 months population"),
  ("2-4 years", "2-4 years numerator", "2-4 years population"),
  ("5-8 years", "5-8 years numerator", "5-8 years population"),
  ("9-12 years", "9-12 years numerator", "9-12 years population"),
  ("13-17 years", "13-17 years numerator", "13-17 years population"),
  ("18-49 years", "18-49 years numerator", "18-49 years population"),
  ("50-64 years", "50-64 years numerator", "50-64 years population"),
  ("65+ years", "65+ years numerator", "65+ years population"),
  ("0 months-7 months", "0 months-7 months numerator", "0 months-7 months population"),
  ("8 months-19 months", "8 months-19 months numerator", "8 months-19 months population"),
  ("50-59 years", "50-59 years numerator", "50-59 years population"),
  ("60-74 years", "60-74 years numerator", "60-74 years population"),
  ("75+ years", "75+ years numerator", "75+ years population"),
  ("60+ years", "60+ years numerator", "60+ years population"),
  ("6 months to 17 years", "6 months to 17 years numerator", "6 months to 17 years population"),
  ("All adults (+18)", "All adults numerator (+18)", "All adults (+18) population"),
  ("Overall (all ages)", "Overall numerator (all ages)", "Overall (all ages) population")]

/-- One pairing check of `validate_num_pop_pairs` (the `num > pop` error, the
independent ratio error — both comparisons skipped whole if either
`int(float(·))` raises — and the `population required` error). -/
def numPopPairCheck (cols : List String) (row : Row) (rowNum : Nat)
    (entry : String × String × String) : List VError :=
  let (name, numCol, popCol) := entry
  if colIn cols numCol ∧ colIn cols popCol then
    let numVal := getCell cols row numCol
    let popVal := getCell cols row popCol
    let cmpErrs :=
      match numVal, popVal with
      | some nv, some pv =>
        match pyIntFloat nv, pyIntFloat pv with
        | some num, some pop =>
          (if num > pop then
            [⟨rowNum, numCol, "Numerator (" ++ commaFmtInt num ++ ") exceeds population (" ++
              commaFmtInt pop ++ ") for " ++ name⟩]
          else []) ++
          (if pop > 0 ∧ num > pop then
            [⟨rowNum, numCol, "Vaccination rate exceeds 100% for " ++ name⟩]
          else [])
        | _, _ => []
      | _, _ => []
    let requiredErrs :=
      match numVal, popVal with
      | some _, none =>
        [⟨rowNum, popCol, "Population required when numerator is provided for " ++ name⟩]
      | _, _ => []
    cmpErrs ++ requiredErrs
  else []

/-- `validate_num_pop_pairs` for one row. -/
def validate_num_pop_pairs (cols : List String) (row : Row) (rowNum : Nat) : List VError :=
  ageGroupPairs.flatMap (numPopPairCheck cols row rowNum)

/-- `validate_numerator_population`. -/
def validate_numerator_population (d : Dataset) : List VError :=
  let numCols := numColsOf d
  let popCols := popColsOf d
  d.rows.enum.flatMap (fun (idx, row) =>
    let rowNum := idx + 2
    numCols.flatMap (fun col =>
      numericCellErrors rowNum col (getCell d.columns row col) 50000000) ++
    popCols.flatMap (fun col =>
      numericCellErrors rowNum col (getCell d.columns row col) 100000000) ++
    validate_num_pop_pairs d.columns row rowNum)

/-! ## Rollup validation -/

/-- The component loop of `validate_rollup_sum`: running sum and `all_present`
flag; `none` models the `except:` path (a present component failed
`int(float(·))`, aborting the whole block). -/
def sumComps (cols : List String) (row : Row) : List String → Option (Int × Bool)
  | [] => some (0, true)
  | c :: rest =>
    match getCell cols row c with
    | none => (sumComps cols row rest).map (fun (s, _) => (s, false))
    | some v =>
      match pyIntFloat v with
      | none => none
      | some n => (sumComps cols row rest).map (fun (s, p) => (n + s, p))

/-- One side (numerator or population) of `validate_rollup_sum`; `kindWord` is
the word used in the message (`"numerator"` / `"population"` — the two source
blocks are otherwise identical). -/
def rollupSideCheck (cols : List String) (row : Row) (rowNum : Nat)
    (componentCols : List String) (rollupCol rollupName kindWord : String) : List VError :=
  match getCell cols row rollupCol with
  | none => []
  | some v =>
    match pyIntFloat v with
    | none => []
    | some rollupVal =>
      match sumComps cols row componentCols with
      | none => []
      | some (componentSum, allPresent) =>
        if allPresent ∧ rollupVal ≠ componentSum then
          [⟨rowNum, rollupCol, rollupName ++ " " ++ kindWord ++ " (" ++
            commaFmtInt rollupVal ++ ") does not equal sum of components (" ++
            commaFmtInt componentSum ++ ")"⟩]
        else []

/-- `validate_rollup_sum`: numerator side then population side. -/
def validate_rollup_sum (cols : List String) (row : Row) (rowNum : Nat)
    (componentNumCols componentPopCols : List String)
    (rollupNumCol rollupPopCol rollupName : String) : List VError :=
  rollupSideCheck cols row rowNum componentNumCols rollupNumCol rollupName "numerator" ++
  rollupSideCheck cols row rowNum componentPopCols rollupPopCol rollupName "population"

/-- `validate_rollups`. -/
def validate_rollups (d : Dataset) (rt : Option String) : List VError :=
  d.rows.enum.flatMap (fun (idx, row) =>
    let rowNum := idx + 2
    if rt = some "COVID" ∨ rt = some "FLU" then
      validate_rollup_sum d.columns row rowNum
        ["6 months-23 months numerator", "2-4 years numerator",
         "5-8 years numerator", "9-12 years numerator", "13-17 years numerator"]
        ["6 months-23 months population", "2-4 years population",
         "5-8 years population", "9-12 years population", "13-17 years population"]
        "6 months to 17 years numerator" "6 months to 17 years population"
        "6 months to 17 years" ++
      validate_rollup_sum d.columns row rowNum
        ["18-49 years numerator", "50-64 years numerator", "65+ years numerator"]
        ["18-49 years population", "50-64 years population", "65+ years population"]
        "All adults numerator (+18)" "All adults (+18) population" "All adults (+18)" ++
      validate_rollup_sum d.columns row rowNum
        ["6 months-23 months numerator", "2-4 years numerator", "5-8 years numerator",
         "9-12 years numerator", "13-17 years numerator", "18-49 years numerator",
         "50-64 years numerator", "65+ years numerator"]
        ["6 months-23 months population", "2-4 years population", "5-8 years population",
         "9-12 years population", "13-17 years population", "18-49 years population",
         "50-64 years population", "65+ years population"]
        "Overall numerator (all ages)" "Overall (all ages) population" "Overall (all ages)"
    else if rt = some "RSV" then
      validate_rollup_sum d.columns row rowNum
        ["60-74 years numerator", "75+ years numerator"]
        ["60-74 years population", "75+ years population"]
        "60+ years numerator" "60+ years population" "60+ years"
    else [])

/-! ## Cumulative data validation -/

/-- The inner loop of `validate_cumulative_data` for one column: walk the rows
carrying the previous parsed value. -/
def cumulGo (cols : List String) (col : String) : Option Int → Nat → List Row → List VError
  | _, _, [] => []
  | prev, idx, row :: rest =>
    match getCell cols row col with
    | none => cumulGo cols col prev (idx + 1) rest
    | some v =>
      match pyIntFloat v with
      | none => cumulGo cols col prev (idx + 1) rest
      | some curr =>
        (match prev with
         | some p =>
           if curr < p then
             [⟨idx + 2, col, "Cumulative value decreased from " ++ commaFmtInt p ++ " to " ++
               commaFmtInt curr ++ " (data should be cumulative)"⟩]
           else []
         | none => []) ++ cumulGo cols col (some curr) (idx + 1) rest

/-- `validate_cumulative_data`. -/
def validate_cumulative_data (d : Dataset) : List VError :=
  (numColsOf d).flatMap (fun col => cumulGo d.columns col none 0 d.rows)

/-! ## Population stability (defined in the source, called from nowhere) -/

/-- Integer percentage rendering used by the model of
`validate_population_stability`'s `f'{change_pct:.1f}'` (tenths of a percent,
rendered with one decimal digit; the source's IEEE-754 rounding of the tenths
digit is approximated by truncation — the function is dead code and the
rendering precision is irrelevant to every claim). -/
def pctTenthsFmt (tenths : Int) : String :=
  toString (tenths / 10) ++ "." ++ toString (tenths % 10)

/-- `validate_population_stability` change scan for one column. -/
def popStabilityGo (col : String) : Option (Nat × Int) → List (Nat × Int) → List VError
  | _, [] => []
  | none, (idx, v) :: rest => popStabilityGo col (some (idx, v)) rest
  | some (_, prevVal), (idx, v) :: rest =>
    (if prevVal > 0 ∧ (v - prevVal).natAbs * 1000 > 20 * 10 * prevVal.natAbs then
      [⟨idx + 2, col, "Population changed " ++
        pctTenthsFmt (((v - prevVal).natAbs * 1000 : Int) / (10 * prevVal)) ++
        "% from previous month (from " ++ commaFmtInt prevVal ++ " to " ++
        commaFmtInt v ++ ")"⟩]
    else []) ++ popStabilityGo col (some (idx, v)) rest

/-- `validate_population_stability` (never invoked by the orchestrator). -/
def validate_population_stability (d : Dataset) : List VError :=
  (popColsOf d).flatMap (fun col =>
    let values := d.rows.enum.filterMap (fun (idx, row) =>
      match getCell d.columns row col with
      | some v => (pyIntFloat v).map (fun n => (idx, n))
      | none => none)
    popStabilityGo col none values)

/-! ## Data quality validation -/

/-- The `excel_errors` token list. -/
def excelErrorTokens : List String :=
  ["#REF!", "#VALUE!", "#DIV/0!", "#NAME?", "#NULL!", "#N/A", "#NUM!"]

/-- The numeric-column `placeholders` list of `validate_data_quality`. -/
def qualityPlaceholders : List String :=
  ["tbd", "n/a", "na", "pending", "null", "none", "-", "--", "...", "xxx", "x", "?", "??"]

/-- The `approx_indicators` list. -/
def approxIndicators : List String :=
  ["about", "approx", "approximately", "~", ">", "<", "around", "roughly", "est", "estimated"]

/-- Whether a column name counts as numeric for the data-quality sweep. -/
def isNumericColName (col : String) : Bool :=
  pyIn "numerator" (pyLower col) || pyIn "population" (pyLower col)

/-- The per-cell body of `validate_data_quality`'s main loop. -/
def dataQualityCellErrors (rowNum : Nat) (col : String) (cell : Option String) : List VError :=
  match cell with
  | none => []
  | some val =>
    let valStr := pyStrip val
    let excelErrs :=
      if excelErrorTokens.contains (pyUpper valStr) then
        [⟨rowNum, col, "Excel error value: " ++ valStr ++
          ". Fix the formula in your spreadsheet before exporting."⟩]
      else []
    let wsErrs :=
      if val ≠ pyStrip val ∧ isNumericColName col then
        [⟨rowNum, col, "Value has leading/trailing whitespace"⟩]
      else []
    let numericErrs :=
      if isNumericColName col then
        let placeholderErrs :=
          if qualityPlaceholders.contains (pyLower valStr) then
            [⟨rowNum, col, "Placeholder \"" ++ valStr ++
              "\" found. Replace with actual data or 0 if no data available."⟩]
          else []
        let mixedErrs :=
          if valStr.data.any Char.isAlpha ∧ valStr.data.any Char.isDigit ∧
             ¬ pyIsDigit (pyReplaceDel (pyReplaceDel (pyReplaceDel
                (pyReplaceDel valStr ".") "-") "/") " ") ∧
             ¬ pyIn "DOB" col ∧ ¬ pyIn "date" (pyLower col) ∧ ¬ pyIn "vax_date" (pyLower col) then
            [⟨rowNum, col, "Mixed text and numbers: \"" ++ valStr ++
              "\". Enter numbers only."⟩]
          else []
        let currencyErrs :=
          if pyStartsWith valStr "$" ∨ pyStartsWith valStr "-$" then
            [⟨rowNum, col, "Currency formatting not allowed: \"" ++ valStr ++
              "\". Remove $ symbol."⟩]
          else []
        let percentErrs :=
          if pyIn "%" valStr then
            [⟨rowNum, col, "Percentage sign not allowed: \"" ++ valStr ++
              "\". Enter raw numbers, not percentages."⟩]
          else []
        let parenErrs :=
          if pyStartsWith valStr "(" ∧ pyEndsWith valStr ")" then
            [⟨rowNum, col, "Accounting format \"(500)\" detected: \"" ++ valStr ++
              "\". Negative values are not valid for vaccination counts."⟩]
          else []
        let approxErrs := approxIndicators.flatMap (fun indicator =>
          if pyIn indicator (pyLower valStr) then
            [⟨rowNum, col, "Approximate values not allowed: \"" ++ valStr ++
              "\". Enter exact counts from your IIS."⟩]
          else [])
        placeholderErrs ++ mixedErrs ++ currencyErrs ++ percentErrs ++ parenErrs ++ approxErrs
      else []
    excelErrs ++ wsErrs ++ numericErrs

/-- `col.replace(' numerator', '').replace(' numerator ', '')` (the age-group
label used in the copy-paste message). -/
def ageGroupLabel (col : String) : String :=
  pyReplaceDel (pyReplaceDel col " numerator") " numerator "

/-- The consecutive-identical scan of `validate_copy_paste_errors` for one
column: returns the single error for the first run of 3+ identical positive
values (the source breaks out of the column after emitting). -/
def copyPasteGo (col : String) (prev : Option Int) (run : Nat) :
    List (Option Int) → List VError
  | [] => []
  | v :: rest =>
    let same := match v, prev with
      | some a, some b => a == b && a > 0
      | _, _ => false
    if same then
      if run + 1 ≥ 3 then
        [⟨0, col, "Possible copy-paste error: " ++ ageGroupLabel col ++
          " has identical values (" ++ commaFmtInt (v.getD 0) ++
          ") for 3+ consecutive months. Cumulative data should increase monthly."⟩]
      else copyPasteGo col v (run + 1) rest
    else copyPasteGo col v 1 rest

/-- `validate_copy_paste_errors`. -/
def validate_copy_paste_errors (d : Dataset) : List VError :=
  if d.rows.length < 3 then []
  else
    (numColsOf d).flatMap (fun col =>
      let values := d.rows.map (fun row =>
        match getCell d.columns row col with
        | some v => pyIntFloat v
        | none => none)
      match values with
      | [] => []
      | v :: rest => copyPasteGo col v 1 rest)

/-- `num_col.replace('numerator', '').strip()`, the base name used to pair a
numerator column with a population column in the heuristic checks. -/
def baseNameOf (numCol : String) : String :=
  pyStrip (pyReplaceDel numCol "numerator")

/-- First population column containing the base name (`for pc in pop_cols`). -/
def findPopColFor (popCols : List String) (baseName : String) : Option String :=
  popCols.find? (fun pc => pyIn baseName pc)

/-- Per-row 100%-rate check of `validate_suspicious_patterns`. -/
def exactRateErrors (cols : List String) (popCols : List String) (numCols : List String)
    (row : Row) (rowNum : Nat) : List VError :=
  numCols.flatMap (fun numCol =>
    match findPopColFor popCols (baseNameOf numCol) with
    | some popCol =>
      if colIn cols numCol ∧ colIn cols popCol then
        match getCell cols row numCol, getCell cols row popCol with
        | some nv, some pv =>
          match pyIntFloat nv, pyIntFloat pv with
          | some num, some pop =>
            if pop > 0 ∧ num = pop ∧ num > 100 then
              [⟨rowNum, numCol, "Exactly 100% vaccination rate (" ++ commaFmtInt num ++
                "/" ++ commaFmtInt pop ++ ") is unusual. Please verify this is correct."⟩]
            else []
          | _, _ => []
        | _, _ => []
      else []
    | none => [])

/-- The round-thousands scan of `validate_suspicious_patterns` over one
column's cells: threaded `(all_round, pop_count)` state with the source's
early `break` once a non-round value is seen. -/
def roundScanCol (state : Bool × Nat) (cells : List (Option String)) : Bool × Nat :=
  match cells with
  | [] => state
  | cell :: rest =>
    match state with
    | (false, n) => (false, n)
    | (true, n) =>
      match cell with
      | none => roundScanCol (true, n) rest
      | some v =>
        match pyIntFloat v with
        | none => roundScanCol (true, n) rest
        | some pop =>
          if pop > 0 ∧ pop % 1000 ≠ 0 then (false, n + 1)
          else roundScanCol (true, n + 1) rest

/-- The round-thousands scan over all population columns. -/
def roundScan (d : Dataset) (state : Bool × Nat) : List String → Bool × Nat
  | [] => state
  | col :: rest =>
    match roundScanCol state (colCells d col) with
    | (false, n) => (false, n)
    | (true, n) => roundScan d (true, n) rest

/-- `validate_suspicious_patterns`. -/
def validate_suspicious_patterns (d : Dataset) : List VError :=
  let numCols := numColsOf d
  let popCols := popColsOf d
  let rateErrs := d.rows.enum.flatMap (fun (idx, row) =>
    exactRateErrors d.columns popCols numCols row (idx + 2))
  let (allRound, popCount) := roundScan d (true, 0) popCols
  let roundErrs :=
    if allRound ∧ popCount > 10 then
      [⟨0, "population",
        "All population values are round thousands. PRISM requires actual IIS population counts, not estimates."⟩]
    else []
  rateErrs ++ roundErrs

/-- The zero-population check of `validate_zero_logic` for one row. -/
def zeroPopErrors (cols : List String) (popCols : List String) (numCols : List String)
    (row : Row) (rowNum : Nat) : List VError :=
  numCols.flatMap (fun numCol =>
    match findPopColFor popCols (baseNameOf numCol) with
    | some popCol =>
      if colIn cols numCol ∧ colIn cols popCol then
        match getCell cols row numCol, getCell cols row popCol with
        | some nv, some pv =>
          match pyIntFloat nv, pyIntFloat pv with
          | some num, some pop =>
            if pop = 0 ∧ num > 0 then
              [⟨rowNum, popCol, "Population is 0 but " ++ commaFmtInt num ++
                " vaccinations reported. Cannot vaccinate people who don't exist."⟩]
            else []
          | _, _ => []
        | _, _ => []
      else []
    | none => [])

/-- The all-zero-row check of `validate_zero_logic` for one row. -/
def allZeroRowErrors (cols : List String) (numCols : List String) (row : Row)
    (rowNum : Nat) : List VError :=
  let presentCells := numCols.filterMap (fun col =>
    if colIn cols col then getCell cols row col else none)
  let hasData := ¬ presentCells.isEmpty
  let allZero := presentCells.all (fun v => pyIntFloat v == some 0)
  if hasData ∧ allZero then
    let monthName :=
      if colIn cols "Month" then
        match getCell cols row "Month" with
        | some m => m
        | none => "nan"
      else "Row " ++ toString rowNum
    [⟨rowNum, "numerator", "All numerators are 0 for " ++ monthName ++
      ". If no vaccinations occurred, this is correct. Otherwise, data may be missing."⟩]
  else []

/-- `validate_zero_logic`. -/
def validate_zero_logic (d : Dataset) : List VError :=
  let numCols := numColsOf d
  let popCols := popColsOf d
  d.rows.enum.flatMap (fun (idx, row) =>
    zeroPopErrors d.columns popCols numCols row (idx + 2) ++
    allZeroRowErrors d.columns numCols row (idx + 2))

/-- The season column `validate_season_mismatch` reads (raw column names). -/
def mismatchSeasonCol (d : Dataset) : Option String :=
  if colIn d.columns "RSV Season" then some "RSV Season"
  else if colIn d.columns "Flu Season" then some "Flu Season"
  else if colIn d.columns "Season" then some "Season"
  else none

/-- The expected season string derived from the configured period
(`f"{y}-{str(y+1)[2:]}"` for months Jul-Dec, `f"{y-1}-{str(y)[2:]}"` else). -/
def expectedSeasonOf (cfg : Config) : String :=
  let monthNum :=
    match (MONTH_MAP.map Prod.fst).indexOf? cfg.expectedMonth with
    | some i => i + 1
    | none => 1
  if monthNum ≥ 7 then
    toString cfg.expectedYear ++ "-" ++ ⟨(toString (cfg.expectedYear + 1)).data.drop 2⟩
  else
    toString (cfg.expectedYear - 1) ++ "-" ++ ⟨(toString cfg.expectedYear).data.drop 2⟩

/-- `validate_season_mismatch` (its `load_config()` is the `cfg` argument). -/
def validate_season_mismatch (d : Dataset) (cfg : Config) : List VError :=
  match mismatchSeasonCol d with
  | none => []
  | some seasonCol =>
    if d.rows.length > 0 then
      let firstCell :=
        match d.rows.head? with
        | some row => getCell d.columns row seasonCol
        | none => none
      match firstCell with
      | none => []
      | some raw =>
        let dataSeason := pyStrip raw
        if dataSeason = "" then []
        else
          let expectedSeason := expectedSeasonOf cfg
          if dataSeason ≠ expectedSeason then
            [⟨0, seasonCol, "Season mismatch: Data shows \"" ++ dataSeason ++
              "\" but currently accepting " ++ toString cfg.expectedYear ++ " " ++
              cfg.expectedMonth ++ " submissions (season " ++ expectedSeason ++ ")."⟩]
          else []
    else []

/-- `validate_data_quality`: the per-cell sweep then the four heuristic
sub-checks (season-mismatch last, with its own config read `cfg2`). -/
def validate_data_quality (d : Dataset) (cfg2 : Config) : List VError :=
  let cellErrs := d.rows.enum.flatMap (fun (idx, row) =>
    d.columns.flatMap (fun col =>
      dataQualityCellErrors (idx + 2) col (getCell d.columns row col)))
  cellErrs ++ validate_copy_paste_errors d ++ validate_suspicious_patterns d ++
    validate_zero_logic d ++ validate_season_mismatch d cfg2

/-! ## The orchestrator -/

/-- The season column the orchestrator reads back for display. -/
def displaySeasonCol (rt : String) : String :=
  if rt = "RSV" then "RSV Season" else if rt = "FLU" then "Flu Season" else "Season"

/-- `validate_prism_file`, from the `df.empty` check on (file reading is I/O
and not modelled).  `cfg1` is the value `load_config()` returns inside
`validate_filename`; `cfg2` the value it returns inside
`validate_season_mismatch` — the engine's two configuration reads. -/
def validate_prism_file (d : Dataset) (filename : String) (cfg1 cfg2 : Config) : VResult :=
  if dsEmpty d then
    { status := .failed, reportType := none,
      errors := [⟨0, "file", "File is empty"⟩], rowCount := 0, season := none }
  else
    match detect_template_type d with
    | none =>
      { status := .failed, reportType := none,
        errors := [⟨0, "file",
          "Cannot detect template type. Expected COVID, Flu, or RSV template."⟩],
        rowCount := d.rows.length, season := none }
    | some rt =>
      let errors :=
        validate_filename filename (some rt) d cfg1 ++
        validate_structure d (some rt) ++
        validate_template_integrity d (some rt) ++
        validate_numerator_population d ++
        validate_rollups d (some rt) ++
        validate_cumulative_data d ++
        validate_data_quality d cfg2
      let seasonCol := displaySeasonCol rt
      let season :=
        if colIn d.columns seasonCol ∧ d.rows.length > 0 then
          match d.rows.head? with
          | some row => getCell d.columns row seasonCol
          | none => none
        else none
      { status := if errors.isEmpty then .passed else .failed,
        reportType := some rt, errors := errors,
        rowCount := d.rows.length, season := season }

/-- The orchestrator under a single configuration state (both `load_config()`
calls observe the same value — no concurrent configuration change). -/
def validatePrismFile1 (d : Dataset) (filename : String) (cfg : Config) : VResult :=
  validate_prism_file d filename cfg cfg

/-! ## Concrete submissions used by the scenario claims -/

/-- Numerator of leaf age group `j` (1-8) in data row `i` (1-12) of the base
COVID scenario file: strictly increasing down every column. -/
def c3BaseNum (j i : Nat) : Nat := 10 * i + j

/-- Population of leaf age group `j` in data row `i` of the base file. -/
def c3BasePop (j i : Nat) : Nat := 1000 + 10 * i + j

/-- Numerators of the injected file: identical to the base file except the
`5-8 years` column (`j = 3`), whose row 5 is set to 500 (rows 6-12 continue
above it so every numerator column stays non-decreasing). -/
def c3Num (j i : Nat) : Nat :=
  if j = 3 then
    if i ≤ 4 then 10 * i + 3 else if i = 5 then 500 else 500 + 10 * (i - 5) + 3
  else 10 * i + j

/-- Populations of the injected file: identical to the base file except
`5-8 years population` at row 5, set to 400. -/
def c3Pop (j i : Nat) : Nat := if j = 3 ∧ i = 5 then 400 else 1000 + 10 * i + j

/-- Sum of a value table over the child groups (j = 1..5). -/
def c3ChildSum (f : Nat → Nat → Nat) (i : Nat) : Nat :=
  f 1 i + f 2 i + f 3 i + f 4 i + f 5 i

/-- Sum over the adult groups (j = 6..8). -/
def c3AdultSum (f : Nat → Nat → Nat) (i : Nat) : Nat := f 6 i + f 7 i + f 8 i

/-- Sum over all eight leaf groups. -/
def c3OverallSum (f : Nat → Nat → Nat) (i : Nat) : Nat :=
  c3ChildSum f i + c3AdultSum f i

/-- A present integer cell. -/
def intCell (n : Nat) : Option String := some (toString n)

/-- Data row `i` (1-12) of a scenario COVID file with numerator table `fn` and
population table `fp`, laid out in `COVID_COLUMNS` order with exact rollups. -/
def c3RowOf (fn fp : Nat → Nat → Nat) (i : Nat) : Row :=
  [some "2025-26", some (VALID_MONTHS.getD (i - 1) ""), some "7/15/2025"] ++
  ([1, 2, 3, 4, 5, 6, 7, 8].flatMap (fun j =>
    [some "r", intCell (fn j i), intCell (fp j i)])) ++
  [some "r", intCell (c3ChildSum fn i), intCell (c3ChildSum fp i)] ++
  [some "r", intCell (c3OverallSum fn i), intCell (c3OverallSum fp i)] ++
  [some "r", intCell (c3AdultSum fn i), intCell (c3AdultSum fp i)] ++
  [some "1/15/2026"]

/-- The base COVID scenario file: 12 rows, exact schema, exact rollups,
strictly increasing numerators, every numerator below its population. -/
def covidC3Base : Dataset :=
  ⟨COVID_COLUMNS, (List.range 12).map (fun k => c3RowOf c3BaseNum c3BasePop (k + 1))⟩

/-- The same file with row 5's `5-8 years numerator` set to 500 and
`5-8 years population` set to 400 (rollups kept exact, numerators kept
non-decreasing). -/
def covidC3 : Dataset :=
  ⟨COVID_COLUMNS, (List.range 12).map (fun k => c3RowOf c3Num c3Pop (k + 1))⟩

/-- The scenario configuration: currently accepting 2026 JAN. -/
def cfgJan2026 : Config := ⟨2026, "JAN"⟩


/-! ## Claim C1 — final status is `passed` iff the error list is empty -/

/-- Claim C1: for every submission that passes parsing and classification, the
orchestrator's final status is `passed` if and only if the accumulated error
sequence is empty after all checks run, and `failed` otherwise; there is no
other terminal status (and the count ranges over the whole error sequence —
no severity tier is excluded). -/
theorem status_passed_iff_errors_empty (d : Dataset) (filename : String)
    (cfg1 cfg2 : Config) (rt : String)
    (hne : dsEmpty d = false) (hrt : detect_template_type d = some rt) :
    ((validate_prism_file d filename cfg1 cfg2).status = .passed ↔
      (validate_prism_file d filename cfg1 cfg2).errors = []) ∧
    ((validate_prism_file d filename cfg1 cfg2).status = .passed ∨
      (validate_prism_file d filename cfg1 cfg2).status = .failed) := by
  simp only [validate_prism_file, hne, hrt, Bool.false_eq_true, if_false]
  by_cases h : (validate_filename filename (some rt) d cfg1 ++
      validate_structure d (some rt) ++ validate_template_integrity d (some rt) ++
      validate_numerator_population d ++ validate_rollups d (some rt) ++
      validate_cumulative_data d ++ validate_data_quality d cfg2).isEmpty <;>
    simp_all [List.isEmpty_iff]

/-- Witness for C1 at a concrete passing submission. -/
theorem status_passed_iff_errors_empty_witness :
    ((validate_prism_file covidC3Base "MonthlyAllCOVID_GAA_2026JAN.csv" cfgJan2026
        cfgJan2026).status = .passed ↔
      (validate_prism_file covidC3Base "MonthlyAllCOVID_GAA_2026JAN.csv" cfgJan2026
        cfgJan2026).errors = []) ∧
    ((validate_prism_file covidC3Base "MonthlyAllCOVID_GAA_2026JAN.csv" cfgJan2026
        cfgJan2026).status = .passed ∨
      (validate_prism_file covidC3Base "MonthlyAllCOVID_GAA_2026JAN.csv" cfgJan2026
        cfgJan2026).status = .failed) :=
  status_passed_iff_errors_empty covidC3Base "MonthlyAllCOVID_GAA_2026JAN.csv"
    cfgJan2026 cfgJan2026 "COVID" (by decide) (by decide)

/-! ## Claim C3 — the injected numerator/population scenario -/

/-- Full evaluation of the orchestrator on the injected scenario file. -/
theorem covidC3_run :
    validatePrismFile1 covidC3 "MonthlyAllCOVID_GAA_2026JAN.csv" cfgJan2026 =
      { status := .failed, reportType := some "COVID",
        errors := [⟨6, "5-8 years numerator",
            "Numerator (500) exceeds population (400) for 5-8 years"⟩,
          ⟨6, "5-8 years numerator", "Vaccination rate exceeds 100% for 5-8 years"⟩],
        rowCount := 12, season := some "2025-26" } := by
  decide

/-- Full evaluation of the orchestrator on the base scenario file: it passes
every check. -/
theorem covidC3Base_run :
    validatePrismFile1 covidC3Base "MonthlyAllCOVID_GAA_2026JAN.csv" cfgJan2026 =
      { status := .passed, reportType := some "COVID", errors := [],
        rowCount := 12, season := some "2025-26" } := by
  decide

/-- Counterexample to claim C3: on a COVID file satisfying every side condition
of the scenario (12 rows, exact schema, correct filename for the configured
2026/JAN period, rollups exact, numerators non-decreasing, all other
numerators below their populations) with row 5's `5-8 years numerator` = 500
and `5-8 years population` = 400, the validator does NOT produce exactly one
error — the pairing check emits two (`numerator exceeds population` and the
independent `rate exceeds 100%` error). -/
theorem c3_not_exactly_one_error :
    (validatePrismFile1 covidC3 "MonthlyAllCOVID_GAA_2026JAN.csv" cfgJan2026).errors.length
      ≠ 1 := by
  rw [covidC3_run]
  decide

/-- Claim C3 (amended): the scenario produces exactly two errors, both located
at row 6 (1-based data row 5 plus header offset) in field
`5-8 years numerator` — the invariant violation and the redundant
rate-exceeds-100% error — and final status `failed`; the file without the
injection passes with zero errors. -/
theorem c3_scenario_two_errors :
    (validatePrismFile1 covidC3 "MonthlyAllCOVID_GAA_2026JAN.csv" cfgJan2026).errors =
      [⟨6, "5-8 years numerator",
        "Numerator (500) exceeds population (400) for 5-8 years"⟩,
       ⟨6, "5-8 years numerator", "Vaccination rate exceeds 100% for 5-8 years"⟩] ∧
    (validatePrismFile1 covidC3 "MonthlyAllCOVID_GAA_2026JAN.csv" cfgJan2026).status =
      .failed ∧
    (validatePrismFile1 covidC3Base "MonthlyAllCOVID_GAA_2026JAN.csv" cfgJan2026).errors =
      [] := by
  rw [covidC3_run, covidC3Base_run]
  exact ⟨rfl, rfl, rfl⟩

/-! ## Claim C2 — rollup-mismatch characterization -/

/-- The integer sum of the component cells (0 for cells that do not parse —
only consulted below when every component parses). -/
def compSum (cols : List String) (row : Row) (comps : List String) : Int :=
  (comps.map (fun c => (cellInt cols row c).getD 0)).sum

/-- Behaviour of the component loop: `none` (a raised exception) and an
`all_present = false` outcome each imply some component is absent or
unparseable; an `all_present = true` outcome means every component is present
and parses, and the running sum is the component sum. -/
theorem sumComps_cons_absent {cols : List String} {row : Row} {c : String}
    (rest : List String) (hg : getCell cols row c = none) :
    sumComps cols row (c :: rest) =
      (sumComps cols row rest).map (fun x => (x.1, false)) := by
  simp [sumComps, hg]

theorem sumComps_cons_fail {cols : List String} {row : Row} {c v : String}
    (rest : List String) (hg : getCell cols row c = some v)
    (hp : pyIntFloat v = none) : sumComps cols row (c :: rest) = none := by
  simp [sumComps, hg, hp]

theorem sumComps_cons_ok {cols : List String} {row : Row} {c v : String} {n : Int}
    (rest : List String) (hg : getCell cols row c = some v)
    (hp : pyIntFloat v = some n) :
    sumComps cols row (c :: rest) =
      (sumComps cols row rest).map (fun x => (n + x.1, x.2)) := by
  simp [sumComps, hg, hp]

theorem sumComps_spec (cols : List String) (row : Row) :
    ∀ comps : List String,
      (sumComps cols row comps = none →
        comps.all (fun c => (cellInt cols row c).isSome) = false) ∧
      (∀ s : Int, sumComps cols row comps = some (s, false) →
        comps.all (fun c => (cellInt cols row c).isSome) = false) ∧
      (∀ s : Int, sumComps cols row comps = some (s, true) →
        comps.all (fun c => (cellInt cols row c).isSome) = true ∧
        s = compSum cols row comps) := by
  intro comps
  induction comps with
  | nil => simp [sumComps, compSum]
  | cons c rest ih =>
    obtain ⟨ihn, ihf, iht⟩ := ih
    refine ⟨?_, ?_, ?_⟩
    · intro h
      cases hg : getCell cols row c with
      | none =>
        rw [sumComps_cons_absent rest hg] at h
        cases hr : sumComps cols row rest with
        | none => simp [List.all_cons, ihn hr]
        | some sp => rw [hr] at h; simp at h
      | some v =>
        cases hp : pyIntFloat v with
        | none => simp [List.all_cons, cellInt, hg, hp]
        | some n =>
          rw [sumComps_cons_ok rest hg hp] at h
          cases hr : sumComps cols row rest with
          | none => simp [List.all_cons, ihn hr]
          | some sp => rw [hr] at h; simp at h
    · intro s h
      cases hg : getCell cols row c with
      | none => simp [List.all_cons, cellInt, hg]
      | some v =>
        cases hp : pyIntFloat v with
        | none => simp [List.all_cons, cellInt, hg, hp]
        | some n =>
          rw [sumComps_cons_ok rest hg hp] at h
          cases hr : sumComps cols row rest with
          | none => rw [hr] at h; simp at h
          | some sp =>
            obtain ⟨s', p⟩ := sp
            rw [hr] at h
            simp only [Option.map_some', Option.some.injEq, Prod.mk.injEq] at h
            obtain ⟨-, hp2⟩ := h
            cases p with
            | true => simp at hp2
            | false => simp [List.all_cons, ihf s' hr]
    · intro s h
      cases hg : getCell cols row c with
      | none =>
        rw [sumComps_cons_absent rest hg] at h
        cases hr : sumComps cols row rest with
        | none => rw [hr] at h; simp at h
        | some sp =>
          obtain ⟨s', p⟩ := sp
          rw [hr] at h
          simp at h
      | some v =>
        cases hp : pyIntFloat v with
        | none => rw [sumComps_cons_fail rest hg hp] at h; simp at h
        | some n =>
          rw [sumComps_cons_ok rest hg hp] at h
          cases hr : sumComps cols row rest with
          | none => rw [hr] at h; simp at h
          | some sp =>
            obtain ⟨s', p⟩ := sp
            rw [hr] at h
            simp only [Option.map_some', Option.some.injEq, Prod.mk.injEq] at h
            obtain ⟨hs, hp2⟩ := h
            cases p with
            | false => simp at hp2
            | true =>
              obtain ⟨hall, hsum⟩ := iht s' hr
              constructor
              · rw [List.all_cons, hall]
                simp [cellInt, hg, hp]
              · subst hsum
                simp [compSum, cellInt, hg, hp, ← hs]

/-- Claim C2: for every row and rollup side (numerator or population,
instantiated with any rollup spec's component columns), a rollup-mismatch
error is emitted if and only if the rollup cell is present and parses to an
integer `r`, every component cell is present and parses, and `r` differs from
the integer sum of the components.  In particular, when the rollup and all
components are present and integral the error fires exactly on a sum
mismatch, and when any component cell is absent no rollup error is emitted. -/
theorem rollup_mismatch_error_iff (cols : List String) (row : Row) (rowNum : Nat)
    (comps : List String) (rcol rname kindWord : String) :
    rollupSideCheck cols row rowNum comps rcol rname kindWord ≠ [] ↔
      ∃ r, cellInt cols row rcol = some r ∧
        comps.all (fun c => (cellInt cols row c).isSome) = true ∧
        r ≠ compSum cols row comps := by
  obtain ⟨hn, hf, ht⟩ := sumComps_spec cols row comps
  unfold rollupSideCheck
  cases hg : getCell cols row rcol with
  | none => simp [cellInt, hg]
  | some v =>
    cases hp : pyIntFloat v with
    | none => simp [cellInt, hg, hp]
    | some r0 =>
      cases hs : sumComps cols row comps with
      | none =>
        have hfalse := hn hs
        simp only [cellInt] at hfalse ⊢
        simp [hg, hp, hs]
        intro hforall
        rw [List.all_eq_true.mpr hforall] at hfalse
        simp at hfalse
      | some sp =>
        obtain ⟨s, p⟩ := sp
        cases p with
        | false =>
          have hfalse := hf s hs
          simp only [cellInt] at hfalse ⊢
          simp [hg, hp, hs]
          intro hforall
          rw [List.all_eq_true.mpr hforall] at hfalse
          simp at hfalse
        | true =>
          obtain ⟨hall, hsum⟩ := ht s hs
          subst hsum
          have hall' := List.all_eq_true.mp hall
          simp only [cellInt] at hall' ⊢
          by_cases hne : r0 = compSum cols row comps
          · simp [hg, hp, hs, hne, hall']
          · simp [hg, hp, hs, hne]
            exact hall'

/-! ## Claim C4 — cumulative decrease errors -/

/-- One scan step with an absent cell. -/
theorem cumulGo_cons_skip {cols : List String} {col : String} {row : Row}
    (rest : List Row) (prev : Option Int) (idx : Nat)
    (hg : getCell cols row col = none) :
    cumulGo cols col prev idx (row :: rest) = cumulGo cols col prev (idx + 1) rest := by
  simp [cumulGo, hg]

/-- One scan step with an unparseable cell. -/
theorem cumulGo_cons_fail {cols : List String} {col : String} {row : Row} {v : String}
    (rest : List Row) (prev : Option Int) (idx : Nat)
    (hg : getCell cols row col = some v) (hp : pyIntFloat v = none) :
    cumulGo cols col prev idx (row :: rest) = cumulGo cols col prev (idx + 1) rest := by
  simp [cumulGo, hg, hp]

/-- One scan step with a parsed value. -/
theorem cumulGo_cons_val {cols : List String} {col : String} {row : Row} {v : String}
    {curr : Int} (rest : List Row) (prev : Option Int) (idx : Nat)
    (hg : getCell cols row col = some v) (hp : pyIntFloat v = some curr) :
    cumulGo cols col prev idx (row :: rest) =
      (match prev with
       | some p =>
         if curr < p then
           [⟨idx + 2, col, "Cumulative value decreased from " ++ commaFmtInt p ++ " to " ++
             commaFmtInt curr ++ " (data should be cumulative)"⟩]
         else []
       | none => []) ++ cumulGo cols col (some curr) (idx + 1) rest := by
  simp [cumulGo, hg, hp]

/-- Every error the cumulative scan emits is tagged with the scanned column
and an Excel row number inside the scanned window. -/
theorem cumulGo_mem (cols : List String) (col : String) :
    ∀ (rows : List Row) (prev : Option Int) (idx : Nat) (e : VError),
      e ∈ cumulGo cols col prev idx rows →
      idx + 2 ≤ e.row ∧ e.row < idx + 2 + rows.length ∧ e.field = col := by
  intro rows
  induction rows with
  | nil => intro prev idx e h; simp [cumulGo] at h
  | cons row rest ih =>
    intro prev idx e h
    have hrec : ∀ p', e ∈ cumulGo cols col p' (idx + 1) rest →
        idx + 2 ≤ e.row ∧ e.row < idx + 2 + (row :: rest).length ∧ e.field = col := by
      intro p' hmem
      obtain ⟨h1, h2, h3⟩ := ih p' (idx + 1) e hmem
      refine ⟨by omega, by simp only [List.length_cons]; omega, h3⟩
    cases hg : getCell cols row col with
    | none =>
      rw [cumulGo_cons_skip rest prev idx hg] at h
      exact hrec prev h
    | some v =>
      cases hp : pyIntFloat v with
      | none =>
        rw [cumulGo_cons_fail rest prev idx hg hp] at h
        exact hrec prev h
      | some curr =>
        rw [cumulGo_cons_val rest prev idx hg hp] at h
        rw [List.mem_append] at h
        rcases h with h | h
        · cases prev with
          | none => simp at h
          | some p =>
            by_cases hlt : curr < p
            · simp only [hlt, if_true, List.mem_singleton] at h
              subst h
              refine ⟨Nat.le_refl _, ?_, rfl⟩
              show idx + 2 < idx + 2 + (row :: rest).length
              simp only [List.length_cons]
              omega
            · simp [hlt] at h
        · exact hrec (some curr) h

/-- The last parsed value after scanning a segment of rows. -/
def prevAfter (cols : List String) (col : String) (prev : Option Int) : List Row → Option Int
  | [] => prev
  | row :: rest =>
    match getCell cols row col with
    | none => prevAfter cols col prev rest
    | some v =>
      match pyIntFloat v with
      | none => prevAfter cols col prev rest
      | some curr => prevAfter cols col (some curr) rest

/-- The cumulative scan splits over a row-list split, carrying the last parsed
value of the first segment into the second. -/
theorem cumulGo_append (cols : List String) (col : String) :
    ∀ (pre rest : List Row) (prev : Option Int) (idx : Nat),
      cumulGo cols col prev idx (pre ++ rest) =
        cumulGo cols col prev idx pre ++
          cumulGo cols col (prevAfter cols col prev pre) (idx + pre.length) rest := by
  intro pre
  induction pre with
  | nil => intro rest prev idx; simp [cumulGo, prevAfter]
  | cons row pre' ih =>
    intro rest prev idx
    rw [List.cons_append]
    cases hg : getCell cols row col with
    | none =>
      rw [cumulGo_cons_skip (pre' ++ rest) prev idx hg, cumulGo_cons_skip pre' prev idx hg,
        ih rest prev (idx + 1)]
      simp only [prevAfter, hg, List.length_cons]
      ring_nf
    | some v =>
      cases hp : pyIntFloat v with
      | none =>
        rw [cumulGo_cons_fail (pre' ++ rest) prev idx hg hp,
          cumulGo_cons_fail pre' prev idx hg hp, ih rest prev (idx + 1)]
        simp only [prevAfter, hg, hp, List.length_cons]
        ring_nf
      | some curr =>
        rw [cumulGo_cons_val (pre' ++ rest) prev idx hg hp,
          cumulGo_cons_val pre' prev idx hg hp, ih rest (some curr) (idx + 1)]
        simp only [prevAfter, hg, hp, List.length_cons, List.append_assoc]
        ring_nf

/-- Destructor for a parsed cell. -/
theorem cellInt_elim {cols : List String} {row : Row} {col : String} {a : Int}
    (h : cellInt cols row col = some a) :
    ∃ v, getCell cols row col = some v ∧ pyIntFloat v = some a := by
  unfold cellInt at h
  cases hg : getCell cols row col with
  | none => rw [hg] at h; simp at h
  | some v => rw [hg] at h; exact ⟨v, rfl, h⟩

/-- Count of decrease errors located at the second of two consecutive parsed
rows: exactly one iff the second value is strictly below the first. -/
theorem cumulGo_pair_countP (cols : List String) (col : String) (prev : Option Int)
    (idx : Nat) (r1 r2 : Row) (post : List Row) (a b : Int)
    (ha : cellInt cols r1 col = some a) (hb : cellInt cols r2 col = some b) :
    (cumulGo cols col prev idx (r1 :: r2 :: post)).countP
      (fun e => e.row == idx + 3 && e.field == col) = if b < a then 1 else 0 := by
  obtain ⟨v1, hg1, hp1⟩ := cellInt_elim ha
  obtain ⟨v2, hg2, hp2⟩ := cellInt_elim hb
  rw [cumulGo_cons_val (r2 :: post) prev idx hg1 hp1,
    cumulGo_cons_val post (some a) (idx + 1) hg2 hp2]
  rw [List.countP_append, List.countP_append]
  have h1 : List.countP (fun (e : VError) => e.row == idx + 3 && e.field == col)
      (match prev with
      | some p =>
        if a < p then
          [(⟨idx + 2, col, "Cumulative value decreased from " ++ commaFmtInt p ++ " to " ++
            commaFmtInt a ++ " (data should be cumulative)"⟩ : VError)]
        else []
      | none => []) = 0 := by
    cases prev with
    | none => simp
    | some p =>
      by_cases hlt : a < p
      · simp only [hlt, if_true, List.countP_cons, List.countP_nil]
        have hne : ((idx + 2 : Nat) == idx + 3) = false := by
          rw [beq_eq_false_iff_ne]
          omega
        simp [hne]
      · simp [hlt]
  have h3 : List.countP (fun (e : VError) => e.row == idx + 3 && e.field == col)
      (cumulGo cols col (some b) (idx + 1 + 1) post) = 0 := by
    rw [List.countP_eq_zero]
    intro e he
    obtain ⟨hlb, -, -⟩ := cumulGo_mem cols col post (some b) (idx + 1 + 1) e he
    have hne : (e.row == idx + 3) = false := by
      rw [beq_eq_false_iff_ne]
      omega
    simp [hne]
  rw [h1, h3]
  by_cases hlt : b < a
  · have h2 : ((idx + 1 + 2 : Nat) == idx + 3) = true := by
      rw [beq_iff_eq]
    simp [hlt, h2]
  · simp [hlt]

/-- Columns other than the target contribute nothing to the count. -/
theorem countP_flatMap_zero (p : VError → Bool) (f : String → List VError) (col : String)
    (hother : ∀ c, c ≠ col → (f c).countP p = 0) :
    ∀ cs : List String, col ∉ cs → (cs.flatMap f).countP p = 0 := by
  intro cs
  induction cs with
  | nil => intro _; simp
  | cons c cs' ih =>
    intro hnot
    rw [List.flatMap_cons, List.countP_append]
    rw [hother c (by intro hEq; exact hnot (hEq ▸ List.mem_cons_self c cs')),
      ih (fun hmem => hnot (List.mem_cons_of_mem c hmem))]

/-- When the target column occurs exactly once, the count over the whole
per-column sweep is its count in that column's scan. -/
theorem countP_flatMap_single (p : VError → Bool) (f : String → List VError) (col : String)
    (hother : ∀ c, c ≠ col → (f c).countP p = 0) :
    ∀ cs : List String, cs.count col = 1 →
      (cs.flatMap f).countP p = (f col).countP p := by
  intro cs
  induction cs with
  | nil => intro h; simp at h
  | cons c cs' ih =>
    intro hcount
    rw [List.flatMap_cons, List.countP_append]
    by_cases hc : c = col
    · subst hc
      have hzero : cs'.count c = 0 := by
        rw [List.count_cons_self] at hcount
        omega
      rw [countP_flatMap_zero p f c hother cs' (List.count_eq_zero.mp hzero)]
      omega
    · rw [hother c hc]
      rw [List.count_cons_of_ne (fun hEq => hc hEq.symm)] at hcount
      rw [ih hcount]
      omega

/-- Claim C4: for a numerator-named column (occurring once among the scanned
numerator columns) and consecutive data rows `r1` (0-based index `i`) and `r2`
whose cells both parse as integers `a` and `b`, the cumulative check emits
exactly one decrease error located at `r2`'s Excel row (`i + 3`) in that
column when `b < a`, and none (zero errors at that location) when `b ≥ a`. -/
theorem cumulative_decrease_error_iff (d : Dataset) (col : String)
    (pre post : List Row) (r1 r2 : Row) (i : Nat) (a b : Int)
    (hrows : d.rows = pre ++ r1 :: r2 :: post) (hi : i = pre.length)
    (ha : cellInt d.columns r1 col = some a) (hb : cellInt d.columns r2 col = some b)
    (honce : (numColsOf d).count col = 1) :
    (validate_cumulative_data d).countP
      (fun e => e.row == i + 3 && e.field == col) = if b < a then 1 else 0 := by
  subst hi
  unfold validate_cumulative_data
  have hother : ∀ c, c ≠ col →
      (cumulGo d.columns c none 0 d.rows).countP
        (fun e => e.row == pre.length + 3 && e.field == col) = 0 := by
    intro c hc
    rw [List.countP_eq_zero]
    intro e he
    obtain ⟨-, -, hf⟩ := cumulGo_mem d.columns c d.rows none 0 e he
    have hne : (e.field == col) = false := by
      rw [beq_eq_false_iff_ne, hf]
      exact hc
    simp [hne]
  rw [countP_flatMap_single _ _ col hother _ honce]
  rw [hrows, cumulGo_append, List.countP_append]
  have hpre : (cumulGo d.columns col none 0 pre).countP
      (fun e => e.row == pre.length + 3 && e.field == col) = 0 := by
    rw [List.countP_eq_zero]
    intro e he
    obtain ⟨-, hub, -⟩ := cumulGo_mem d.columns col pre none 0 e he
    have hne : (e.row == pre.length + 3) = false := by
      rw [beq_eq_false_iff_ne]
      omega
    simp [hne]
  rw [hpre]
  have hpair := cumulGo_pair_countP d.columns col (prevAfter d.columns col none pre)
    pre.length r1 r2 post a b ha hb
  simp only [Nat.zero_add]
  rw [hpair]

/-- Witness for C4 at a concrete two-row column with a decrease. -/
theorem cumulative_decrease_error_iff_witness :
    (validate_cumulative_data ⟨["A numerator"], [[some "5"], [some "3"]]⟩).countP
      (fun e => e.row == 0 + 3 && e.field == "A numerator") =
      if (3 : Int) < 5 then 1 else 0 :=
  cumulative_decrease_error_iff ⟨["A numerator"], [[some "5"], [some "3"]]⟩
    "A numerator" [] [] [some "5"] [some "3"] 0 5 3 rfl rfl
    (by decide) (by decide) (by decide)

/-! ## Claim C6 — legacy template short-circuit -/

/-- If some deprecated column matches, the scan returns the message of the
first matching one. -/
theorem firstOldMatch_some (colsLower : List String) :
    ∀ olds : List String, (∃ c ∈ olds, colsLower.contains (pyLower c) = true) →
      ∃ c ∈ olds,
        firstOldMatch colsLower olds = some ("Found old column \"" ++ c ++ "\"") := by
  intro olds
  induction olds with
  | nil => rintro ⟨c, hc, -⟩; simp at hc
  | cons o rest ih =>
    rintro ⟨c, hc, hcont⟩
    by_cases ho : colsLower.contains (pyLower o) = true
    · refine ⟨o, List.mem_cons_self o rest, ?_⟩
      unfold firstOldMatch
      rw [if_pos ho]
    · rcases List.mem_cons.mp hc with hEq | hmem
      · subst hEq; exact absurd hcont ho
      · obtain ⟨c', hc', hm⟩ := ih ⟨c, hmem, hcont⟩
        refine ⟨c', List.mem_cons_of_mem o hc', ?_⟩
        unfold firstOldMatch
        rw [if_neg ho]
        exact hm

/-- Claim C6: if any column name, lowercased and trimmed, equals a known
deprecated column of the classified report type (lowercased), the Schema
Validator emits exactly the one file-level `template` error naming that
deprecated column — and no other structural error (no column-count, missing-
or extra-column, blank-row or row-cardinality error) for this dataset. -/
theorem legacy_template_single_error (d : Dataset) (rt : Option String)
    (h : ∃ c ∈ oldColumnsFor rt,
      (d.columns.map (fun x => pyStrip (pyLower x))).contains (pyLower c) = true) :
    ∃ c ∈ oldColumnsFor rt,
      validate_structure d rt = [oldTemplateError ("Found old column \"" ++ c ++ "\"")] := by
  obtain ⟨c, hc, hm⟩ := firstOldMatch_some _ (oldColumnsFor rt) h
  refine ⟨c, hc, ?_⟩
  have hd : detect_old_template d.columns rt =
      some ("Found old column \"" ++ c ++ "\"") := hm
  simp [validate_structure, hd]

/-- Witness for C6 at a concrete dataset using the deprecated `COVID Season`
column. -/
theorem legacy_template_single_error_witness :
    ∃ c ∈ oldColumnsFor (some "COVID"),
      validate_structure ⟨["COVID Season"], [[some "x"]]⟩ (some "COVID") =
        [oldTemplateError ("Found old column \"" ++ c ++ "\"")] :=
  legacy_template_single_error ⟨["COVID Season"], [[some "x"]]⟩ (some "COVID") (by decide)

/-! ## Claim C7 — fuzzy column match -/

/-- The abort test of `find_close_match`: target and candidate are exactly
equal after lowercasing and trimming (spaces kept). -/
def fcmExactEq (target cand : String) : Bool :=
  pyStrip (pyLower target) == pyStrip (pyLower cand)

/-- Rule (a): space-stripped equality. -/
def fcmRuleA (target cand : String) : Bool :=
  removeSpaces (pyStrip (pyLower target)) == removeSpaces (pyStrip (pyLower cand))

/-- Rule (b): equal-index similarity at least 0.8 of the longer length, for
both strings longer than 5 characters. -/
def fcmRuleB (target cand : String) : Bool :=
  let tl := pyStrip (pyLower target)
  let cl := pyStrip (pyLower cand)
  decide (tl.length > 5 ∧ cl.length > 5 ∧
    5 * eqAtIdxCount tl.data cl.data ≥ 4 * max tl.length cl.length)

/-- Rule (c): substring containment either way, for both strings longer than
10 characters. -/
def fcmRuleC (target cand : String) : Bool :=
  let tl := pyStrip (pyLower target)
  let cl := pyStrip (pyLower cand)
  decide (tl.length > 10 ∧ cl.length > 10 ∧ (pyIn tl cl = true ∨ pyIn cl tl = true))

/-- A candidate is returned when it is not the abort case and some rule
applies. -/
def fcmMatches (target cand : String) : Bool :=
  fcmRuleA target cand || fcmRuleB target cand || fcmRuleC target cand

/-- One step of the candidate loop, phrased with the rule predicates. -/
theorem findCloseGo_cons (target cand : String) (rest : List String) :
    findCloseGo target (cand :: rest) =
      if fcmExactEq target cand then none
      else if fcmMatches target cand then some cand
      else findCloseGo target rest := by
  by_cases h0 : fcmExactEq target cand = true
  · have h0' := h0
    unfold fcmExactEq at h0'
    simp only [findCloseGo, h0', if_true, h0]
  · have h0' : (pyStrip (pyLower target) == pyStrip (pyLower cand)) = false := by
      rw [← Bool.not_eq_true]
      exact h0
    rw [if_neg h0]
    by_cases hA : fcmRuleA target cand = true
    · have hA' := hA
      unfold fcmRuleA at hA'
      have hm : fcmMatches target cand = true := by simp [fcmMatches, hA]
      simp only [findCloseGo, h0', Bool.false_eq_true, if_false, hA', if_true, hm]
    · by_cases hB : fcmRuleB target cand = true
      · have hB' := of_decide_eq_true (by simpa [fcmRuleB] using hB)
        have hm : fcmMatches target cand = true := by simp [fcmMatches, hB]
        rw [if_pos hm]
        simp only [findCloseGo, h0', Bool.false_eq_true, if_false]
        rw [if_neg (by simp only [fcmRuleA] at hA; exact fun hEq => hA (by simpa using hEq)),
          if_pos hB']
      · by_cases hC : fcmRuleC target cand = true
        · have hC' := of_decide_eq_true (by simpa [fcmRuleC] using hC)
          have hm : fcmMatches target cand = true := by simp [fcmMatches, hC]
          rw [if_pos hm]
          simp only [findCloseGo, h0', Bool.false_eq_true, if_false]
          rw [if_neg (by simp only [fcmRuleA] at hA; exact fun hEq => hA (by simpa using hEq)),
            if_neg (by simp only [fcmRuleB] at hB; exact fun hEq => hB (by simpa using hEq)),
            if_pos (by tauto)]
        · have hm : fcmMatches target cand = false := by
            simp only [fcmMatches, Bool.or_eq_true, not_or] at *
            simp [Bool.not_eq_true] at hA hB hC
            simp [hA, hB, hC]
          rw [if_neg (by simp [hm])]
          simp only [findCloseGo, h0', Bool.false_eq_true, if_false]
          rw [if_neg (by simp only [fcmRuleA] at hA; exact fun hEq => hA (by simpa using hEq)),
            if_neg (by simp only [fcmRuleB] at hB; exact fun hEq => hB (by simpa using hEq)),
            if_neg (by simp only [fcmRuleC] at hC; exact fun hEq => hC (by simpa using hEq))]

/-- Forward direction: a returned candidate is the first (in list order) that
is no abort and satisfies some rule, with no abort candidate before it. -/
theorem findCloseGo_some (target : String) :
    ∀ (cands : List String) (c : String), findCloseGo target cands = some c →
      ∃ pre post, cands = pre ++ c :: post ∧ fcmExactEq target c = false ∧
        fcmMatches target c = true ∧
        ∀ x ∈ pre, fcmExactEq target x = false ∧ fcmMatches target x = false := by
  intro cands
  induction cands with
  | nil => intro c h; simp [findCloseGo] at h
  | cons cand rest ih =>
    intro c h
    rw [findCloseGo_cons] at h
    by_cases h0 : fcmExactEq target cand = true
    · rw [if_pos h0] at h; cases h
    · rw [if_neg h0] at h
      by_cases hm : fcmMatches target cand = true
      · rw [if_pos hm] at h
        have hc : cand = c := by injection h
        subst hc
        exact ⟨[], rest, rfl, by simpa using h0, hm, by simp⟩
      · rw [if_neg hm] at h
        obtain ⟨pre, post, hsplit, hc1, hc2, hall⟩ := ih c h
        refine ⟨cand :: pre, post, by rw [List.cons_append, hsplit], hc1, hc2, ?_⟩
        intro x hx
        rcases List.mem_cons.mp hx with rfl | hx'
        · exact ⟨by simpa using h0, by simpa using hm⟩
        · exact hall x hx'

/-- Backward direction: that first candidate is indeed returned. -/
theorem findCloseGo_of_split (target c : String) :
    ∀ (pre post : List String),
      fcmExactEq target c = false → fcmMatches target c = true →
      (∀ x ∈ pre, fcmExactEq target x = false ∧ fcmMatches target x = false) →
      findCloseGo target (pre ++ c :: post) = some c := by
  intro pre
  induction pre with
  | nil =>
    intro post h1 h2 _
    rw [List.nil_append, findCloseGo_cons, if_neg (by simp [h1]), if_pos h2]
  | cons x pre' ih =>
    intro post h1 h2 hall
    obtain ⟨hx1, hx2⟩ := hall x (List.mem_cons_self x pre')
    rw [List.cons_append, findCloseGo_cons, if_neg (by simp [hx1]), if_neg (by simp [hx2])]
    exact ih post h1 h2 (fun y hy => hall y (List.mem_cons_of_mem x hy))

/-- Claim C7 (amended): `find_close_match` applies the three rules per
candidate in list order, not by global rule precedence — it returns `c`
exactly when `c` is the first candidate that both differs from the target
under the trimmed case-insensitive comparison and satisfies rule (a)
space-stripped equality, rule (b) similarity, or rule (c) containment, and no
earlier candidate is exactly equal to the target (such a candidate aborts the
whole search with no match). -/
theorem find_close_match_first_candidate (target : String) (cands : List String)
    (c : String) :
    find_close_match target cands = some c ↔
      ∃ pre post, cands = pre ++ c :: post ∧
        fcmExactEq target c = false ∧ fcmMatches target c = true ∧
        ∀ x ∈ pre, fcmExactEq target x = false ∧ fcmMatches target x = false := by
  constructor
  · exact findCloseGo_some target cands c
  · rintro ⟨pre, post, rfl, h1, h2, hall⟩
    exact findCloseGo_of_split target c pre post h1 h2 hall

/-- Counterexample to claim C7 as stated: the first candidate matches only by
rule (b) similarity, a later candidate matches by rule (a) space-stripped
equality, yet the rule-(b) candidate is returned — candidate order, not rule
precedence, decides. -/
theorem find_close_match_not_rule_precedence :
    fcmRuleA "abcdef" "abc def" = true ∧
    fcmRuleA "abcdef" "abcdeX" = false ∧
    fcmRuleB "abcdef" "abcdeX" = true ∧
    find_close_match "abcdef" ["abcdeX", "abc def"] = some "abcdeX" ∧
    find_close_match "abcdef" ["abcdeX", "abc def"] ≠ some "abc def" := by
  decide

/-! ## Claim C9 — the configuration is read twice, not once -/

/-- On an empty frame the season-mismatch check emits nothing, whatever the
configuration. -/
theorem season_mismatch_of_empty (d : Dataset) (c : Config) (h : dsEmpty d = true) :
    validate_season_mismatch d c = [] := by
  unfold dsEmpty at h
  rcases Bool.or_eq_true .. |>.mp h with h1 | h2
  · have hlen : d.rows.length = 0 := by
      rw [List.isEmpty_iff] at h1
      simp [h1]
    unfold validate_season_mismatch
    cases hm : mismatchSeasonCol d with
    | none => rfl
    | some sc => simp [hlen]
  · have hcols : d.columns = [] := List.isEmpty_iff.mp h2
    unfold validate_season_mismatch mismatchSeasonCol colIn
    rw [hcols]
    simp

/-- Unclassifiable input carries none of the three season columns, so the
season-mismatch check emits nothing, whatever the configuration. -/
theorem season_mismatch_of_unclassifiable (d : Dataset) (c : Config)
    (h : detect_template_type d = none) : validate_season_mismatch d c = [] := by
  have hraw : ∀ s : String, pyStrip s = s →
      (d.columns.map pyStrip).contains s = false → colIn d.columns s = false := by
    intro s hstrip hstr
    cases hcc : colIn d.columns s with
    | false => rfl
    | true =>
      exfalso
      have hmem : s ∈ d.columns := List.elem_iff.mp hcc
      have hmem2 := List.mem_map_of_mem pyStrip hmem
      rw [hstrip] at hmem2
      have hc2 : (d.columns.map pyStrip).contains s = true := List.elem_iff.mpr hmem2
      rw [hc2] at hstr
      cases hstr
  unfold detect_template_type at h
  by_cases hr : ((d.columns.map pyStrip).contains "RSV Season" ||
      (d.columns.map pyStrip).contains "vax_date_0-7 months") = true
  · rw [if_pos hr] at h; cases h
  · rw [if_neg hr] at h
    by_cases hf : (d.columns.map pyStrip).contains "Flu Season" = true
    · rw [if_pos hf] at h; cases h
    · rw [if_neg hf] at h
      by_cases hs : ((d.columns.map pyStrip).contains "Season" &&
          !(d.columns.map pyStrip).contains "Flu Season") = true
      · rw [if_pos hs] at h; cases h
      · have hrsv : (d.columns.map pyStrip).contains "RSV Season" = false := by
          cases hval : (d.columns.map pyStrip).contains "RSV Season" with
          | false => rfl
          | true => exact absurd ((Bool.or_eq_true ..).mpr (Or.inl hval)) hr
        have hflu : (d.columns.map pyStrip).contains "Flu Season" = false := by
          cases hval : (d.columns.map pyStrip).contains "Flu Season" with
          | false => rfl
          | true => exact absurd hval hf
        have hsea : (d.columns.map pyStrip).contains "Season" = false := by
          cases hval : (d.columns.map pyStrip).contains "Season" with
          | false => rfl
          | true =>
            exfalso
            apply hs
            rw [hval, hflu]
            rfl
        unfold validate_season_mismatch mismatchSeasonCol
        rw [hraw "RSV Season" rfl hrsv, hraw "Flu Season" rfl hflu,
          hraw "Season" rfl hsea]
        simp

/-- Counterexample to claim C9: the engine reads the configuration twice (once
in `validate_filename`, once in `validate_season_mismatch`).  A run in which
the store changes from (2026, JAN) to (2026, JUL) after the filename check
produces a different error list than a run that stays at (2026, JAN)
throughout — the file is not judged against one consistent period. -/
theorem config_change_mid_validation_observable :
    (validate_prism_file ⟨["Season"], [[some "2025-26"]]⟩ "f" cfgJan2026
        ⟨2026, "JUL"⟩).errors ≠
      (validate_prism_file ⟨["Season"], [[some "2025-26"]]⟩ "f" cfgJan2026
        cfgJan2026).errors := by
  decide

/-- Claim C9 (amended): the configuration is read at exactly two points — the
filename check (`cfg1`) and the season-mismatch check (`cfg2`).  A run whose
store changes from `c1` to `c2` after the filename check produces the same
error list as a run that stays at `c1` if and only if the season-mismatch
check emits the same errors under `c2` as under `c1`; every other check is
unaffected by the second read. -/
theorem errors_agree_iff_season_check_agrees (d : Dataset) (fn : String)
    (c1 c2 : Config) :
    (validate_prism_file d fn c1 c2).errors = (validate_prism_file d fn c1 c1).errors ↔
      validate_season_mismatch d c2 = validate_season_mismatch d c1 := by
  by_cases hemp : dsEmpty d = true
  · simp [validate_prism_file, hemp, season_mismatch_of_empty d _ hemp]
  · have hemp' : dsEmpty d = false := by simpa using hemp
    cases hdet : detect_template_type d with
    | none =>
      simp [validate_prism_file, hemp', hdet, season_mismatch_of_unclassifiable d _ hdet]
    | some rt =>
      simp only [validate_prism_file, hemp', hdet, Bool.false_eq_true, if_false]
      constructor
      · intro h
        have h2 := List.append_cancel_left h
        unfold validate_data_quality at h2
        exact List.append_cancel_left h2
      · intro h
        unfold validate_data_quality
        rw [h]

/-! ## Claim C5 — filename round-trip -/

/-- A filename built from the grammar with the configured period. -/
def builtFilename (t code : String) (cfg : Config) : String :=
  prefixForTypeStr t ++ "_" ++ code ++ "_" ++ toString cfg.expectedYear ++
    cfg.expectedMonth ++ ".csv"

/-- Rebuilding a string from its characters. -/
theorem stringEta (s : String) : (⟨s.data⟩ : String) = s := by
  cases s
  rfl

/-- A dot-initial pattern deletes nothing from a dot-free character list. -/
theorem replaceDelFuel_no_dot (p' : List Char) :
    ∀ (cs : List Char) (fuel : Nat), cs.length ≤ fuel → (∀ c ∈ cs, c ≠ '.') →
      replaceDelFuel ('.' :: p') fuel cs = cs := by
  intro cs
  induction cs with
  | nil => intro fuel _ _; cases fuel <;> rfl
  | cons c rest ih =>
    intro fuel hf hno
    cases fuel with
    | zero => simp at hf
    | succ f =>
      have hc : c ≠ '.' := hno c (List.mem_cons_self ..)
      unfold replaceDelFuel
      rw [if_neg ?_]
      · rw [ih f (by simpa using hf) (fun x hx => hno x (List.mem_cons_of_mem c hx))]
      · rintro ⟨hpre, -⟩
        simp only [List.isPrefixOf, Bool.and_eq_true, beq_iff_eq] at hpre
        exact hc hpre.1.symm

/-- Deleting `.csv` from a dot-free name followed by `.csv` leaves the name. -/
theorem replaceDelFuel_strip_csv :
    ∀ (cs : List Char) (fuel : Nat), cs.length + 1 ≤ fuel → (∀ c ∈ cs, c ≠ '.') →
      replaceDelFuel ('.' :: 'c' :: 's' :: 'v' :: []) fuel
        (cs ++ ['.', 'c', 's', 'v']) = cs := by
  intro cs
  induction cs with
  | nil =>
    intro fuel hf _
    cases fuel with
    | zero => simp at hf
    | succ f =>
      show replaceDelFuel ['.', 'c', 's', 'v'] (f + 1) ['.', 'c', 's', 'v'] = []
      unfold replaceDelFuel
      rw [if_pos (by decide)]
      show replaceDelFuel ['.', 'c', 's', 'v'] f [] = []
      cases f <;> rfl
  | cons c rest ih =>
    intro fuel hf hno
    cases fuel with
    | zero => simp at hf
    | succ f =>
      have hc : c ≠ '.' := hno c (List.mem_cons_self ..)
      show replaceDelFuel ['.', 'c', 's', 'v'] (f + 1)
        (c :: (rest ++ ['.', 'c', 's', 'v'])) = c :: rest
      unfold replaceDelFuel
      rw [if_neg ?_]
      · rw [ih f (by simpa using hf) (fun x hx => hno x (List.mem_cons_of_mem c hx))]
      · rintro ⟨hpre, -⟩
        simp only [List.isPrefixOf, Bool.and_eq_true, beq_iff_eq] at hpre
        exact hc hpre.1.symm

/-- Stripping the extension of a dot-free base name with `.csv` appended. -/
theorem stripCsvExt_append_csv (base : String) (hno : ∀ c ∈ base.data, c ≠ '.') :
    stripCsvExt (base ++ ".csv") = base := by
  unfold stripCsvExt pyReplaceDel
  have h1 : replaceDel (".csv".data) (base ++ ".csv").data = base.data := by
    rw [String.data_append]
    show replaceDelFuel (".csv".data) (base.data ++ (".csv").data).length
      (base.data ++ ".csv".data) = base.data
    have hd : (".csv").data = ['.', 'c', 's', 'v'] := rfl
    rw [hd, List.length_append]
    exact replaceDelFuel_strip_csv base.data _ (by simp) hno
  have h2 : replaceDel (".CSV".data) base.data = base.data := by
    show replaceDelFuel (".CSV".data) base.data.length base.data = base.data
    have hd : (".CSV").data = '.' :: "CSV".data := rfl
    rw [hd]
    exact replaceDelFuel_no_dot _ base.data base.data.length (Nat.le_refl _) hno
  show (⟨replaceDel ".CSV".data
    (String.mk (replaceDel ".csv".data (base ++ ".csv").data)).data⟩ : String) = base
  rw [show (String.mk (replaceDel ".csv".data (base ++ ".csv").data)).data =
    replaceDel ".csv".data (base ++ ".csv").data from rfl, h1, h2, stringEta]

/-- The grammar matcher accepts a well-shaped name and captures its groups. -/
theorem matchPrism_build (pre : String) (a b c d1 d2 d3 d4 m1 m2 m3 : Char)
    (ha : a.isAlpha = true) (hb : b.isAlpha = true) (hc : c.isAlpha = true)
    (h1 : d1.isDigit = true) (h2 : d2.isDigit = true) (h3 : d3.isDigit = true)
    (h4 : d4.isDigit = true) (hm1 : m1.isAlpha = true) (hm2 : m2.isAlpha = true)
    (hm3 : m3.isAlpha = true) :
    matchPrism pre ⟨pre.data ++ '_' :: [a, b, c, '_', d1, d2, d3, d4, m1, m2, m3]⟩ =
      some (⟨[a, b, c]⟩, ⟨[d1, d2, d3, d4]⟩, ⟨[m1, m2, m3]⟩) := by
  have hncs : (⟨pre.data ++ '_' :: [a, b, c, '_', d1, d2, d3, d4, m1, m2, m3]⟩ :
      String).data =
      (pre.data ++ ['_']) ++ [a, b, c, '_', d1, d2, d3, d4, m1, m2, m3] := by
    show pre.data ++ '_' :: [a, b, c, '_', d1, d2, d3, d4, m1, m2, m3] =
      pre.data ++ ['_'] ++ [a, b, c, '_', d1, d2, d3, d4, m1, m2, m3]
    rw [List.append_cons]
  unfold matchPrism
  rw [hncs, List.take_left, List.drop_left]
  rw [if_pos ?hlen]
  case hlen =>
    rw [beq_iff_eq, List.length_append]
    rfl
  rw [if_pos (beq_self_eq_true _)]
  unfold matchNameTail
  simp [ha, hb, hc, h1, h2, h3, h4, hm1, hm2, hm3]

/-- The matcher rejects a name of the wrong length. -/
theorem matchPrism_none_len (pre name : String)
    (h : name.data.length ≠ pre.data.length + 12) : matchPrism pre name = none := by
  unfold matchPrism
  rw [if_neg ?_]
  intro hcontra
  rw [beq_iff_eq, List.length_append] at hcontra
  simp only [List.length_cons, List.length_nil] at hcontra
  omega

/-- The matcher rejects a name whose lowered head differs from the pattern. -/
theorem matchPrism_none_head (pre name : String)
    (h : (name.data.take (pre.data ++ ['_']).length).map Char.toLower ≠
      (pre.data ++ ['_']).map Char.toLower) : matchPrism pre name = none := by
  unfold matchPrism
  by_cases hlen : (name.data.length == (pre.data ++ ['_']).length + 11) = true
  · rw [if_pos hlen, if_neg ?_]
    intro hcontra
    rw [beq_iff_eq] at hcontra
    exact h hcontra
  · rw [if_neg hlen]

/-- Two strings with the same characters are equal. -/
theorem stringExt {a b : String} (h : a.data = b.data) : a = b := by
  cases a
  cases b
  exact congrArg String.mk h

/-- Every registry site code is three uppercase ASCII letters (and hence fixed
by `upper()`). -/
theorem siteCodeKeys_shape : ∀ k ∈ siteCodeKeys,
    k.length = 3 ∧ k.data.all Char.isUpper = true ∧ pyUpper k = k := by
  decide

/-- Every filename month code is three uppercase ASCII letters. -/
theorem filenameMonths_shape : ∀ m ∈ FILENAME_MONTHS,
    m.length = 3 ∧ m.data.all Char.isUpper = true ∧ pyUpper m = m := by
  decide

/-- Shape of the rendered configured year for the in-range window. -/
theorem yearStringShape : ∀ y : Int, 2020 ≤ y → y ≤ 2030 →
    (toString y).data.length = 4 ∧ (toString y).data.all Char.isDigit = true ∧
    (digitsToNat (toString y).data : Int) = y := by
  intro y h1 h2
  interval_cases y <;> exact ⟨by decide, by decide, by decide⟩

/-- Uppercase ASCII letters are alphabetic. -/
theorem isAlpha_of_isUpper {c : Char} (h : c.isUpper = true) : c.isAlpha = true := by
  unfold Char.isAlpha
  rw [h]
  rfl

/-- Uppercase ASCII letters are not the dot. -/
theorem ne_dot_of_isUpper {c : Char} (h : c.isUpper = true) : c ≠ '.' := by
  intro hEq
  rw [hEq] at h
  exact absurd h (by decide)

/-- Decimal digits are not the dot. -/
theorem ne_dot_of_isDigit {c : Char} (h : c.isDigit = true) : c ≠ '.' := by
  intro hEq
  rw [hEq] at h
  exact absurd h (by decide)

/-- After a grammar match on the configured period with a registry code of the
classified type, every post-match filename check is silent. -/
theorem matchedChecks_clean (t code : String) (cfg : Config) (d : Dataset)
    (hsite : siteCodeKeys.contains code = true) (hup : pyUpper code = code)
    (hmup : pyUpper cfg.expectedMonth = cfg.expectedMonth)
    (hmin : FILENAME_MONTHS.contains cfg.expectedMonth = true)
    (hynum : (digitsToNat (toString cfg.expectedYear).data : Int) = cfg.expectedYear)
    (hylo : 2020 ≤ cfg.expectedYear) (hyhi : cfg.expectedYear ≤ 2030)
    (hdata : colIn d.columns "Month" = false ∨
      ((d.rows.filterMap (fun r => getCell d.columns r "Month")).map pyStrip).contains
        (monthMapGet cfg.expectedMonth) = true) :
    matchedFilenameChecks t code (toString cfg.expectedYear) cfg.expectedMonth
      (some t) d cfg = [] := by
  have hy1 : ¬(digitsToNat (toString cfg.expectedYear).data : Int) < 2020 := by
    rw [hynum]; omega
  have hy2 : ¬(digitsToNat (toString cfg.expectedYear).data : Int) > 2030 := by
    rw [hynum]; omega
  have hsiteMem : code ∈ siteCodeKeys := List.elem_iff.mp hsite
  have hminMem : cfg.expectedMonth ∈ FILENAME_MONTHS := List.elem_iff.mp hmin
  rcases hdata with hcol | hcont
  · simp [matchedFilenameChecks, hup, hmup, hsiteMem, hminMem, hy1, hy2, hcol]
  · by_cases hc : colIn d.columns "Month" = true
    · have hcont' : monthMapGet cfg.expectedMonth ∈
          (d.rows.filterMap (fun r => getCell d.columns r "Month")).map pyStrip :=
        List.elem_iff.mp hcont
      simp [matchedFilenameChecks, hup, hmup, hsiteMem, hminMem, hy1, hy2, hc]
      obtain ⟨a, ⟨r, hr, hcell⟩, hstrip⟩ := by simpa using hcont'
      exact ⟨a, ⟨r, hr, hcell, hstrip⟩⟩
    · simp [matchedFilenameChecks, hup, hmup, hsiteMem, hminMem, hy1, hy2, hc]

/-- The built base name, flattened to its character list. -/
theorem builtBase_eq (pre code ys m : String) (a b c d1 d2 d3 d4 m1 m2 m3 : Char)
    (hcd : code.data = [a, b, c]) (hyd : ys.data = [d1, d2, d3, d4])
    (hmd : m.data = [m1, m2, m3]) :
    pre ++ "_" ++ code ++ "_" ++ ys ++ m =
      (⟨pre.data ++ '_' :: [a, b, c, '_', d1, d2, d3, d4, m1, m2, m3]⟩ : String) := by
  apply stringExt
  have hu : ("_" : String).data = ['_'] := rfl
  simp [String.data_append, hu, hcd, hyd, hmd]

/-- The pattern chain of `validate_filename` on a well-formed built name:
the matching pattern fires and captures exactly the built groups. -/
theorem tryMatchName_built (t code ys m : String)
    (ht : t = "COVID" ∨ t = "FLU" ∨ t = "RSV")
    (a b c d1 d2 d3 d4 m1 m2 m3 : Char)
    (hcd : code.data = [a, b, c]) (hyd : ys.data = [d1, d2, d3, d4])
    (hmd : m.data = [m1, m2, m3])
    (hca : a.isAlpha = true) (hcb : b.isAlpha = true) (hcc : c.isAlpha = true)
    (hd1 : d1.isDigit = true) (hd2 : d2.isDigit = true) (hd3 : d3.isDigit = true)
    (hd4 : d4.isDigit = true)
    (hm1 : m1.isAlpha = true) (hm2 : m2.isAlpha = true) (hm3 : m3.isAlpha = true) :
    tryMatchName (prefixForTypeStr t ++ "_" ++ code ++ "_" ++ ys ++ m) =
      some (t, code, ys, m) := by
  have hc2 : (⟨[a, b, c]⟩ : String) = code := (stringExt hcd).symm
  have hy2 : (⟨[d1, d2, d3, d4]⟩ : String) = ys := (stringExt hyd).symm
  have hm2' : (⟨[m1, m2, m3]⟩ : String) = m := (stringExt hmd).symm
  have hlenC : ("MonthlyAllCOVID").data.length = 15 := rfl
  have hlenF : ("MonthlyFlu").data.length = 10 := rfl
  have hlenR : ("MonthlyRSV").data.length = 10 := rfl
  rcases ht with rfl | rfl | rfl
  · rw [show prefixForTypeStr "COVID" = "MonthlyAllCOVID" from rfl,
      builtBase_eq "MonthlyAllCOVID" code ys m a b c d1 d2 d3 d4 m1 m2 m3 hcd hyd hmd]
    unfold tryMatchName
    rw [matchPrism_build "MonthlyAllCOVID" a b c d1 d2 d3 d4 m1 m2 m3
      hca hcb hcc hd1 hd2 hd3 hd4 hm1 hm2 hm3]
    show some ("COVID", (⟨[a, b, c]⟩ : String), (⟨[d1, d2, d3, d4]⟩ : String),
      (⟨[m1, m2, m3]⟩ : String)) = some ("COVID", code, ys, m)
    rw [hc2, hy2, hm2']
  · rw [show prefixForTypeStr "FLU" = "MonthlyFlu" from rfl,
      builtBase_eq "MonthlyFlu" code ys m a b c d1 d2 d3 d4 m1 m2 m3 hcd hyd hmd]
    unfold tryMatchName
    rw [matchPrism_none_len "MonthlyAllCOVID" _ (by
      show ("MonthlyFlu".data ++ '_' :: [a, b, c, '_', d1, d2, d3, d4, m1, m2, m3]).length
        ≠ "MonthlyAllCOVID".data.length + 12
      rw [List.length_append, hlenF, hlenC]
      simp)]
    rw [matchPrism_build "MonthlyFlu" a b c d1 d2 d3 d4 m1 m2 m3
      hca hcb hcc hd1 hd2 hd3 hd4 hm1 hm2 hm3]
    show some ("FLU", (⟨[a, b, c]⟩ : String), (⟨[d1, d2, d3, d4]⟩ : String),
      (⟨[m1, m2, m3]⟩ : String)) = some ("FLU", code, ys, m)
    rw [hc2, hy2, hm2']
  · rw [show prefixForTypeStr "RSV" = "MonthlyRSV" from rfl,
      builtBase_eq "MonthlyRSV" code ys m a b c d1 d2 d3 d4 m1 m2 m3 hcd hyd hmd]
    unfold tryMatchName
    rw [matchPrism_none_len "MonthlyAllCOVID" _ (by
      show ("MonthlyRSV".data ++ '_' :: [a, b, c, '_', d1, d2, d3, d4, m1, m2, m3]).length
        ≠ "MonthlyAllCOVID".data.length + 12
      rw [List.length_append, hlenR, hlenC]
      simp)]
    rw [matchPrism_none_head "MonthlyFlu" _ (by
      show (("MonthlyRSV".data ++ '_' :: [a, b, c, '_', d1, d2, d3, d4, m1, m2, m3]).take
          ("MonthlyFlu".data ++ ['_']).length).map Char.toLower ≠
        ("MonthlyFlu".data ++ ['_']).map Char.toLower
      rw [List.append_cons "MonthlyRSV".data '_', List.take_left' (by rfl)]
      decide)]
    rw [matchPrism_build "MonthlyRSV" a b c d1 d2 d3 d4 m1 m2 m3
      hca hcb hcc hd1 hd2 hd3 hd4 hm1 hm2 hm3]
    show some ("RSV", (⟨[a, b, c]⟩ : String), (⟨[d1, d2, d3, d4]⟩ : String),
      (⟨[m1, m2, m3]⟩ : String)) = some ("RSV", code, ys, m)
    rw [hc2, hy2, hm2']

/-- Counterexample to claim C5: a filename built exactly from the grammar with
a registry site code (GAA) and the configured period (2026 JAN), validated
against a dataset classified to the same report type (COVID), still produces
a filename-field error — the dataset's `Month` column does not contain the
month implied by the filename. -/
theorem filename_roundtrip_not_error_free :
    detect_template_type ⟨["Season", "Month"], [[some "2025-26", some "Feb"]]⟩ =
      some "COVID" ∧
    validate_filename (builtFilename "COVID" "GAA" cfgJan2026) (some "COVID")
      ⟨["Season", "Month"], [[some "2025-26", some "Feb"]]⟩ cfgJan2026 ≠ [] := by
  constructor
  · decide
  · decide

/-- Claim C5 (amended): the filename round-trip produces zero filename-field
errors provided additionally that the configured year lies in the accepted
2020-2030 window, the configured month is one of the twelve filename codes,
and the dataset either has no `Month` column or its `Month` column contains
the data-month corresponding to the configured month. -/
theorem filename_roundtrip_clean (t code : String) (cfg : Config) (d : Dataset)
    (ht : t = "COVID" ∨ t = "FLU" ∨ t = "RSV")
    (hcode : code ∈ siteCodeKeys)
    (hylo : 2020 ≤ cfg.expectedYear) (hyhi : cfg.expectedYear ≤ 2030)
    (hmon : cfg.expectedMonth ∈ FILENAME_MONTHS)
    (hdata : colIn d.columns "Month" = false ∨
      ((d.rows.filterMap (fun r => getCell d.columns r "Month")).map pyStrip).contains
        (monthMapGet cfg.expectedMonth) = true) :
    validate_filename (builtFilename t code cfg) (some t) d cfg = [] := by
  obtain ⟨hlen3, hupAll, hupEq⟩ := siteCodeKeys_shape code hcode
  obtain ⟨a, b, c, hcd⟩ := List.length_eq_three.mp hlen3
  obtain ⟨hm3, hmAll, hmUp⟩ := filenameMonths_shape cfg.expectedMonth hmon
  obtain ⟨m1, m2, m3, hmd⟩ := List.length_eq_three.mp hm3
  obtain ⟨hy4, hyAll, hynum⟩ := yearStringShape cfg.expectedYear hylo hyhi
  obtain ⟨d1, t1, hy1⟩ := List.exists_of_length_succ _ hy4
  have ht1 : t1.length = 3 := by
    rw [hy1] at hy4
    simpa using hy4
  obtain ⟨d2, d3, d4, ht1e⟩ := List.length_eq_three.mp ht1
  have hyd : (toString cfg.expectedYear).data = [d1, d2, d3, d4] := by rw [hy1, ht1e]
  have hcu : a.isUpper = true ∧ b.isUpper = true ∧ c.isUpper = true := by
    rw [hcd] at hupAll
    simpa using hupAll
  have hmu : m1.isUpper = true ∧ m2.isUpper = true ∧ m3.isUpper = true := by
    rw [hmd] at hmAll
    simpa using hmAll
  have hyi : d1.isDigit = true ∧ d2.isDigit = true ∧ d3.isDigit = true ∧
      d4.isDigit = true := by
    rw [hyd] at hyAll
    simpa using hyAll
  have hnodot : ∀ ch ∈ (prefixForTypeStr t ++ "_" ++ code ++ "_" ++
      toString cfg.expectedYear ++ cfg.expectedMonth).data, ch ≠ '.' := by
    rw [builtBase_eq _ code _ _ a b c d1 d2 d3 d4 m1 m2 m3 hcd hyd hmd]
    intro ch hch
    rcases List.mem_append.mp hch with hpre | htail
    · rcases ht with rfl | rfl | rfl
      · exact (by decide : ∀ x ∈ ("MonthlyAllCOVID" : String).data, x ≠ '.') ch hpre
      · exact (by decide : ∀ x ∈ ("MonthlyFlu" : String).data, x ≠ '.') ch hpre
      · exact (by decide : ∀ x ∈ ("MonthlyRSV" : String).data, x ≠ '.') ch hpre
    · simp only [List.mem_cons, List.not_mem_nil, or_false] at htail
      rcases htail with rfl | rfl | rfl | rfl | rfl | rfl | rfl | rfl | rfl | rfl | rfl | rfl
      · decide
      · exact ne_dot_of_isUpper hcu.1
      · exact ne_dot_of_isUpper hcu.2.1
      · exact ne_dot_of_isUpper hcu.2.2
      · decide
      · exact ne_dot_of_isDigit hyi.1
      · exact ne_dot_of_isDigit hyi.2.1
      · exact ne_dot_of_isDigit hyi.2.2.1
      · exact ne_dot_of_isDigit hyi.2.2.2
      · exact ne_dot_of_isUpper hmu.1
      · exact ne_dot_of_isUpper hmu.2.1
      · exact ne_dot_of_isUpper hmu.2.2
  have hstrip : stripCsvExt (builtFilename t code cfg) =
      prefixForTypeStr t ++ "_" ++ code ++ "_" ++ toString cfg.expectedYear ++
        cfg.expectedMonth :=
    stripCsvExt_append_csv _ hnodot
  have htry : tryMatchName (prefixForTypeStr t ++ "_" ++ code ++ "_" ++
      toString cfg.expectedYear ++ cfg.expectedMonth) =
      some (t, code, toString cfg.expectedYear, cfg.expectedMonth) :=
    tryMatchName_built t code _ _ ht a b c d1 d2 d3 d4 m1 m2 m3 hcd hyd hmd
      (isAlpha_of_isUpper hcu.1) (isAlpha_of_isUpper hcu.2.1) (isAlpha_of_isUpper hcu.2.2)
      hyi.1 hyi.2.1 hyi.2.2.1 hyi.2.2.2
      (isAlpha_of_isUpper hmu.1) (isAlpha_of_isUpper hmu.2.1) (isAlpha_of_isUpper hmu.2.2)
  simp only [validate_filename, hstrip, htry]
  exact matchedChecks_clean t code cfg d (List.elem_iff.mpr hcode) hupEq hmUp
    (List.elem_iff.mpr hmon) hynum hylo hyhi hdata

/-- Witness for the amended C5 at a concrete type, code, period and dataset. -/
theorem filename_roundtrip_clean_witness :
    validate_filename (builtFilename "COVID" "GAA" cfgJan2026) (some "COVID")
      ⟨["Season"], [[some "2025-26"]]⟩ cfgJan2026 = [] :=
  filename_roundtrip_clean "COVID" "GAA" cfgJan2026 ⟨["Season"], [[some "2025-26"]]⟩
    (Or.inl rfl) (by decide) (by decide) (by decide) (by decide) (Or.inl (by decide))

/-! ## Claim C8 — extension stripping is exact-spelling only -/

/-- A list is a `isPrefixOf` itself. -/
theorem charsIsPrefixOfSelf : ∀ l : List Char, l.isPrefixOf l = true := by
  intro l
  induction l with
  | nil => rfl
  | cons c rest ih => simp [List.isPrefixOf, ih]

/-- Generalization of the `.csv` strip: deleting a dot-initial pattern from a
dot-free name with exactly that pattern appended leaves the name. -/
theorem replaceDelFuel_strip_self (p' : List Char) :
    ∀ (cs : List Char) (fuel : Nat), cs.length + 1 ≤ fuel → (∀ c ∈ cs, c ≠ '.') →
      replaceDelFuel ('.' :: p') fuel (cs ++ '.' :: p') = cs := by
  intro cs
  induction cs with
  | nil =>
    intro fuel hf _
    cases fuel with
    | zero => simp at hf
    | succ f =>
      show replaceDelFuel ('.' :: p') (f + 1) ('.' :: p') = []
      unfold replaceDelFuel
      rw [if_pos ⟨charsIsPrefixOfSelf _, by simp⟩]
      show replaceDelFuel ('.' :: p') f (p'.drop (('.' :: p').length - 1)) = []
      rw [show ('.' :: p').length - 1 = p'.length by simp, List.drop_length]
      cases f <;> rfl
  | cons c rest ih =>
    intro fuel hf hno
    cases fuel with
    | zero => simp at hf
    | succ f =>
      have hc : c ≠ '.' := hno c (List.mem_cons_self ..)
      show replaceDelFuel ('.' :: p') (f + 1) (c :: (rest ++ '.' :: p')) = c :: rest
      unfold replaceDelFuel
      rw [if_neg ?_]
      · rw [ih f (by simpa using hf) (fun x hx => hno x (List.mem_cons_of_mem c hx))]
      · rintro ⟨hpre, -⟩
        simp only [List.isPrefixOf, Bool.and_eq_true, beq_iff_eq] at hpre
        exact hc hpre.1.symm

/-- The lowercase `.csv` pass does not touch an uppercase `.CSV` ending. -/
theorem replaceDelFuel_keep_CSV :
    ∀ (cs : List Char) (fuel : Nat), cs.length + 4 ≤ fuel → (∀ c ∈ cs, c ≠ '.') →
      replaceDelFuel ('.' :: 'c' :: 's' :: 'v' :: []) fuel (cs ++ ['.', 'C', 'S', 'V']) =
        cs ++ ['.', 'C', 'S', 'V'] := by
  intro cs
  induction cs with
  | nil =>
    intro fuel hf _
    cases fuel with
    | zero => simp at hf
    | succ f =>
      show replaceDelFuel ['.', 'c', 's', 'v'] (f + 1) ['.', 'C', 'S', 'V'] =
        ['.', 'C', 'S', 'V']
      unfold replaceDelFuel
      rw [if_neg (by decide)]
      have hrest : replaceDelFuel ['.', 'c', 's', 'v'] f ['C', 'S', 'V'] =
          ['C', 'S', 'V'] :=
        replaceDelFuel_no_dot _ ['C', 'S', 'V'] f (by simp only [List.length_cons, List.length_nil] at hf ⊢; omega) (by decide)
      rw [hrest]
  | cons c rest ih =>
    intro fuel hf hno
    cases fuel with
    | zero => simp at hf
    | succ f =>
      have hc : c ≠ '.' := hno c (List.mem_cons_self ..)
      show replaceDelFuel ['.', 'c', 's', 'v'] (f + 1)
        (c :: (rest ++ ['.', 'C', 'S', 'V'])) = c :: (rest ++ ['.', 'C', 'S', 'V'])
      unfold replaceDelFuel
      rw [if_neg ?_]
      · rw [ih f (by simpa using hf) (fun x hx => hno x (List.mem_cons_of_mem c hx))]
      · rintro ⟨hpre, -⟩
        simp only [List.isPrefixOf, Bool.and_eq_true, beq_iff_eq] at hpre
        exact hc hpre.1.symm

/-- Stripping the extension of a dot-free base name with `.CSV` appended. -/
theorem stripCsvExt_append_CSV (base : String) (hno : ∀ c ∈ base.data, c ≠ '.') :
    stripCsvExt (base ++ ".CSV") = base := by
  unfold stripCsvExt pyReplaceDel
  have h1 : replaceDel (".csv".data) (base ++ ".CSV").data = base.data ++ ['.', 'C', 'S', 'V'] := by
    rw [String.data_append]
    show replaceDelFuel (".csv".data) (base.data ++ (".CSV").data).length
      (base.data ++ ".CSV".data) = base.data ++ ['.', 'C', 'S', 'V']
    have hd : (".CSV").data = ['.', 'C', 'S', 'V'] := rfl
    have hd2 : (".csv").data = ['.', 'c', 's', 'v'] := rfl
    rw [hd, hd2, List.length_append]
    exact replaceDelFuel_keep_CSV base.data _ (by simp) hno
  have h2 : replaceDel (".CSV".data) (base.data ++ ['.', 'C', 'S', 'V']) = base.data := by
    show replaceDelFuel (".CSV".data) (base.data ++ ['.', 'C', 'S', 'V']).length
      (base.data ++ ['.', 'C', 'S', 'V']) = base.data
    have hd : (".CSV").data = '.' :: ['C', 'S', 'V'] := rfl
    rw [hd, List.length_append]
    exact replaceDelFuel_strip_self ['C', 'S', 'V'] base.data _ (by simp) hno
  show (⟨replaceDel ".CSV".data
    (String.mk (replaceDel ".csv".data (base ++ ".CSV").data)).data⟩ : String) = base
  rw [show (String.mk (replaceDel ".csv".data (base ++ ".CSV").data)).data =
    replaceDel ".csv".data (base ++ ".CSV").data from rfl, h1, h2, stringEta]

/-- Counterexample to claim C8: two filenames differing only in the
capitalization of the extension (`.csv` vs `.Csv`) do NOT yield the same
filename-check outcome — only the exact spellings `.csv` and `.CSV` are
removed, so the `.Csv` variant fails grammar matching. -/
theorem csv_extension_capitalization_matters :
    validate_filename "MonthlyAllCOVID_GAA_2026JAN.csv" (some "COVID")
      ⟨["Season"], [[some "2025-26"]]⟩ cfgJan2026 = [] ∧
    validate_filename "MonthlyAllCOVID_GAA_2026JAN.Csv" (some "COVID")
      ⟨["Season"], [[some "2025-26"]]⟩ cfgJan2026 ≠ [] := by
  exact ⟨by decide, by decide⟩

/-- Claim C8 (amended): only the exact spellings `.csv` and `.CSV` are removed
(every occurrence) before grammar matching.  For a dot-free base name the two
spellings strip to the same name, so whenever that name matches some type's
grammar the two filenames produce identical filename-check errors. -/
theorem csv_extension_exact_spellings (base : String) (rt : Option String)
    (d : Dataset) (cfg : Config) (hno : ∀ ch ∈ base.data, ch ≠ '.') :
    stripCsvExt (base ++ ".csv") = stripCsvExt (base ++ ".CSV") ∧
    (tryMatchName (stripCsvExt (base ++ ".csv")) ≠ none →
      validate_filename (base ++ ".csv") rt d cfg =
        validate_filename (base ++ ".CSV") rt d cfg) := by
  have h1 := stripCsvExt_append_csv base hno
  have h2 := stripCsvExt_append_CSV base hno
  refine ⟨by rw [h1, h2], ?_⟩
  intro hmatch
  rw [h1] at hmatch
  cases htm : tryMatchName base with
  | none => exact absurd htm hmatch
  | some quad =>
    obtain ⟨dt, site, yr, mon⟩ := quad
    simp only [validate_filename, h1, h2, htm]

/-- Witness for the amended C8 at a concrete base name. -/
theorem csv_extension_exact_spellings_witness :
    stripCsvExt ("MonthlyAllCOVID_GAA_2026JAN" ++ ".csv") =
      stripCsvExt ("MonthlyAllCOVID_GAA_2026JAN" ++ ".CSV") ∧
    (tryMatchName (stripCsvExt ("MonthlyAllCOVID_GAA_2026JAN" ++ ".csv")) ≠ none →
      validate_filename ("MonthlyAllCOVID_GAA_2026JAN" ++ ".csv") (some "COVID")
        ⟨["Season"], [[some "2025-26"]]⟩ cfgJan2026 =
      validate_filename ("MonthlyAllCOVID_GAA_2026JAN" ++ ".CSV") (some "COVID")
        ⟨["Season"], [[some "2025-26"]]⟩ cfgJan2026) :=
  csv_extension_exact_spellings "MonthlyAllCOVID_GAA_2026JAN" (some "COVID")
    ⟨["Season"], [[some "2025-26"]]⟩ cfgJan2026 (by decide)

/-! ## Claim C10 — no population-stability errors are ever emitted -/

/-- The message head that identifies a month-over-month population-change
error (the only messages `validate_population_stability` produces). -/
def popChangedHead : List Char := "Population changed".data

/-- An error is benign for C10 when its message does not start with
`Population changed`. -/
def msgOk (e : VError) : Prop := popChangedHead.isPrefixOf e.message.data = false

/-- A character clash below both lengths rules out the prefix. -/
theorem not_prefix_of_clash :
    ∀ (l p t : List Char), (l.zip p).any (fun ab => ab.1 != ab.2) = true →
      p.isPrefixOf (l ++ t) = false := by
  intro l
  induction l with
  | nil => intro p t h; simp at h
  | cons c cs ih =>
    intro p t h
    cases p with
    | nil => simp at h
    | cons q qs =>
      simp only [List.zip_cons_cons, List.any_cons, Bool.or_eq_true, bne_iff_ne] at h
      by_cases hcq : c = q
      · subst hcq
        rcases h with h | h
        · exact absurd rfl h
        · simp only [List.cons_append, List.isPrefixOf]
          change (c == c && qs.isPrefixOf (cs ++ t)) = false
          rw [ih qs t (by simpa using h)]
          simp
      · simp only [List.cons_append, List.isPrefixOf]
        have : (q == c) = false := by
          rw [beq_eq_false_iff_ne]
          exact fun hEq => hcq hEq.symm
        rw [this]
        simp

/-- String append is associative (on the character lists). -/
theorem strAppendAssoc (a b c : String) : a ++ b ++ c = a ++ (b ++ c) := by
  apply stringExt
  simp [String.data_append]

/-- A message headed by a literal that clashes with `Population changed`. -/
theorem msgOk_head (lit rest : String) (row : Nat) (field : String)
    (h : (lit.data.zip popChangedHead).any (fun ab => ab.1 != ab.2) = true) :
    msgOk ⟨row, field, lit ++ rest⟩ := by
  unfold msgOk
  show popChangedHead.isPrefixOf (lit ++ rest).data = false
  rw [String.data_append]
  exact not_prefix_of_clash lit.data popChangedHead rest.data h

/-- A literal message that clashes with `Population changed`. -/
theorem msgOk_lit (lit : String) (row : Nat) (field : String)
    (h : popChangedHead.isPrefixOf lit.data = false) : msgOk ⟨row, field, lit⟩ := h

theorem msgOk_nil : ∀ e ∈ ([] : List VError), msgOk e := by simp

theorem msgOk_append {l1 l2 : List VError} (h1 : ∀ e ∈ l1, msgOk e)
    (h2 : ∀ e ∈ l2, msgOk e) : ∀ e ∈ l1 ++ l2, msgOk e := by
  intro e he
  rcases List.mem_append.mp he with h | h
  · exact h1 e h
  · exact h2 e h

theorem msgOk_flatMap {α : Type} {f : α → List VError} {xs : List α}
    (h : ∀ x ∈ xs, ∀ e ∈ f x, msgOk e) : ∀ e ∈ xs.flatMap f, msgOk e := by
  intro e he
  obtain ⟨x, hx, hex⟩ := List.mem_flatMap.mp he
  exact h x hx e hex

theorem msgOk_ite {c : Prop} [Decidable c] {l1 l2 : List VError}
    (h1 : ∀ e ∈ l1, msgOk e) (h2 : ∀ e ∈ l2, msgOk e) :
    ∀ e ∈ (if c then l1 else l2), msgOk e := by
  split
  · exact h1
  · exact h2

theorem msgOk_singleton {v : VError} (h : msgOk v) : ∀ e ∈ [v], msgOk e := by
  intro e he
  rw [List.mem_singleton.mp he]
  exact h

theorem msgOk_missingCols (ems ams : List String) :
    ∀ e ∈ missingColumnErrors ems ams, msgOk e := by
  unfold missingColumnErrors
  refine msgOk_flatMap ?_
  intro x _
  refine msgOk_ite ?_ msgOk_nil
  cases find_close_match x ams with
  | some cm =>
    refine msgOk_singleton ?_
    simp only [strAppendAssoc]
    exact msgOk_head _ _ _ _ (by decide)
  | none =>
    refine msgOk_singleton ?_
    simp only [strAppendAssoc]
    exact msgOk_head _ _ _ _ (by decide)

theorem msgOk_extraCols (ems ams : List String) :
    ∀ e ∈ extraColumnErrors ems ams, msgOk e := by
  unfold extraColumnErrors
  refine msgOk_flatMap ?_
  intro x _
  refine msgOk_ite ?_ msgOk_nil
  refine msgOk_ite (msgOk_singleton (msgOk_lit _ _ _ (by decide))) ?_
  cases find_close_match x ems with
  | some cm =>
    refine msgOk_singleton ?_
    simp only [strAppendAssoc]
    exact msgOk_head _ _ _ _ (by decide)
  | none =>
    refine msgOk_singleton ?_
    simp only [strAppendAssoc]
    exact msgOk_head _ _ _ _ (by decide)

theorem msgOk_blankRows (rows : List Row) : ∀ e ∈ blankRowErrors rows, msgOk e := by
  unfold blankRowErrors
  refine msgOk_flatMap ?_
  intro x _
  exact msgOk_ite (msgOk_singleton (msgOk_lit _ _ _ (by decide))) msgOk_nil

theorem msgOk_rowCount (n : Nat) : ∀ e ∈ rowCountErrors n, msgOk e := by
  unfold rowCountErrors
  refine msgOk_ite (msgOk_ite (msgOk_singleton ?_) (msgOk_singleton ?_)) msgOk_nil
  · simp only [strAppendAssoc]
    exact msgOk_head _ _ _ _ (by decide)
  · simp only [strAppendAssoc]
    exact msgOk_head _ _ _ _ (by decide)

theorem msgOk_structure (d : Dataset) (rt : Option String) :
    ∀ e ∈ validate_structure d rt, msgOk e := by
  simp only [validate_structure]
  cases detect_old_template d.columns rt with
  | some m =>
    refine msgOk_singleton ?_
    unfold oldTemplateError
    simp only [strAppendAssoc]
    exact msgOk_head _ _ _ _ (by decide)
  | none =>
    refine msgOk_append (msgOk_append (msgOk_append (msgOk_append ?_
      (msgOk_missingCols _ _)) (msgOk_extraCols _ _)) (msgOk_blankRows _))
      (msgOk_rowCount _)
    refine msgOk_ite (msgOk_singleton ?_) msgOk_nil
    simp only [strAppendAssoc]
    exact msgOk_head _ _ _ _ (by decide)

theorem msgOk_integrity (d : Dataset) (rt : Option String) :
    ∀ e ∈ validate_template_integrity d rt, msgOk e := by
  simp only [validate_template_integrity]
  refine msgOk_append (msgOk_append ?_ ?_) ?_
  · refine msgOk_ite ?_ msgOk_nil
    refine msgOk_flatMap ?_
    intro x _
    obtain ⟨idx, cell⟩ := x
    cases cell with
    | some val =>
      refine msgOk_ite (msgOk_singleton ?_) msgOk_nil
      simp only [strAppendAssoc]
      exact msgOk_head _ _ _ _ (by decide)
    | none => exact msgOk_nil
  · refine msgOk_ite ?_ msgOk_nil
    refine msgOk_append ?_ ?_
    · refine msgOk_flatMap ?_
      intro x _
      obtain ⟨idx, cell⟩ := x
      cases cell with
      | some val =>
        refine msgOk_ite (msgOk_singleton ?_) msgOk_nil
        simp only [strAppendAssoc]
        exact msgOk_head _ _ _ _ (by decide)
      | none => exact msgOk_nil
    · exact msgOk_ite (msgOk_singleton (msgOk_lit _ _ _ (by decide))) msgOk_nil
  · refine msgOk_ite ?_ msgOk_nil
    refine msgOk_flatMap ?_
    intro x _
    obtain ⟨idx, cell⟩ := x
    cases cell with
    | some val =>
      refine msgOk_ite (msgOk_singleton ?_) msgOk_nil
      simp only [strAppendAssoc]
      exact msgOk_head _ _ _ _ (by decide)
    | none => exact msgOk_nil

theorem msgOk_matchedChecks (dt s y m : String) (rt : Option String) (d : Dataset)
    (cfg : Config) : ∀ e ∈ matchedFilenameChecks dt s y m rt d cfg, msgOk e := by
  simp only [matchedFilenameChecks]
  cases rt with
  | none =>
    refine msgOk_ite
      (msgOk_append (msgOk_append (msgOk_append ?_ msgOk_nil) ?_) (msgOk_singleton ?_))
      (msgOk_append (msgOk_append (msgOk_append (msgOk_append ?_ msgOk_nil) ?_) ?_) ?_)
    all_goals try refine msgOk_ite (msgOk_singleton ?_) msgOk_nil
    all_goals try refine msgOk_ite (msgOk_ite (msgOk_singleton ?_) msgOk_nil) msgOk_nil
    all_goals simp only [strAppendAssoc]
    all_goals exact msgOk_head _ _ _ _ (by decide)
  | some t =>
    refine msgOk_ite
      (msgOk_append (msgOk_append (msgOk_append ?_ ?_) ?_) (msgOk_singleton ?_))
      (msgOk_append (msgOk_append (msgOk_append (msgOk_append ?_ ?_) ?_) ?_) ?_)
    all_goals try refine msgOk_ite (msgOk_singleton ?_) msgOk_nil
    all_goals try refine msgOk_ite (msgOk_ite (msgOk_singleton ?_) msgOk_nil) msgOk_nil
    all_goals simp only [strAppendAssoc]
    all_goals exact msgOk_head _ _ _ _ (by decide)

theorem msgOk_filename (fn : String) (rt : Option String) (d : Dataset) (cfg : Config) :
    ∀ e ∈ validate_filename fn rt d cfg, msgOk e := by
  simp only [validate_filename]
  cases tryMatchName (stripCsvExt fn) with
  | none =>
    refine msgOk_singleton ?_
    simp only [noMatchFilenameError]
    simp only [strAppendAssoc]
    exact msgOk_head _ _ _ _ (by decide)
  | some quad =>
    obtain ⟨dt, s, y, m⟩ := quad
    exact msgOk_matchedChecks dt s y m rt d cfg

theorem integer_value_msgOk (val msg : String) (r : Nat) (f : String)
    (h : validate_integer_value val = some msg) : msgOk ⟨r, f, msg⟩ := by
  simp only [validate_integer_value] at h
  split at h
  · obtain rfl := (Option.some.inj h).symm
    simp only [strAppendAssoc]
    exact msgOk_head _ _ _ _ (by decide)
  · split at h
    · obtain rfl := (Option.some.inj h).symm
      simp only [strAppendAssoc]
      exact msgOk_head _ _ _ _ (by decide)
    · split at h
      · obtain rfl := (Option.some.inj h).symm
        simp only [strAppendAssoc]
        exact msgOk_head _ _ _ _ (by decide)
      · split at h
        · split at h
          · obtain rfl := (Option.some.inj h).symm
            simp only [strAppendAssoc]
            exact msgOk_head _ _ _ _ (by decide)
          · simp at h
        · obtain rfl := (Option.some.inj h).symm
          simp only [strAppendAssoc]
          exact msgOk_head _ _ _ _ (by decide)

theorem msgOk_numericCell (rowNum : Nat) (col : String) (cell : Option String)
    (ceiling : Int) : ∀ e ∈ numericCellErrors rowNum col cell ceiling, msgOk e := by
  cases cell with
  | none => simp only [numericCellErrors]; exact msgOk_nil
  | some val =>
    cases hv : validate_integer_value val with
    | some msg =>
      simp only [numericCellErrors, hv]
      exact msgOk_singleton (integer_value_msgOk val msg rowNum col hv)
    | none =>
      cases hf : pyIntFloat val with
      | some v =>
        simp only [numericCellErrors, hv, hf]
        refine msgOk_append (msgOk_ite (msgOk_singleton ?_) msgOk_nil)
          (msgOk_ite (msgOk_singleton ?_) msgOk_nil)
        · exact msgOk_head _ _ _ _ (by decide)
        · exact msgOk_head _ _ _ _ (by decide)
      | none => simp only [numericCellErrors, hv, hf]; exact msgOk_nil

theorem msgOk_pairCheck (cols : List String) (row : Row) (rowNum : Nat)
    (entry : String × String × String) :
    ∀ e ∈ numPopPairCheck cols row rowNum entry, msgOk e := by
  obtain ⟨name, numCol, popCol⟩ := entry
  cases hn : getCell cols row numCol with
  | none =>
    simp only [numPopPairCheck, hn]
    refine msgOk_ite ?_ msgOk_nil
    exact msgOk_append msgOk_nil msgOk_nil
  | some nv =>
    cases hp : getCell cols row popCol with
    | none =>
      simp only [numPopPairCheck, hn, hp]
      refine msgOk_ite ?_ msgOk_nil
      refine msgOk_append msgOk_nil (msgOk_singleton ?_)
      exact msgOk_head _ _ _ _ (by decide)
    | some pv =>
      cases hf : pyIntFloat nv with
      | none =>
        simp only [numPopPairCheck, hn, hp, hf]
        refine msgOk_ite ?_ msgOk_nil
        exact msgOk_append msgOk_nil msgOk_nil
      | some num =>
        cases hg : pyIntFloat pv with
        | none =>
          simp only [numPopPairCheck, hn, hp, hf, hg]
          refine msgOk_ite ?_ msgOk_nil
          exact msgOk_append msgOk_nil msgOk_nil
        | some pop =>
          simp only [numPopPairCheck, hn, hp, hf, hg]
          refine msgOk_ite ?_ msgOk_nil
          refine msgOk_append (msgOk_append (msgOk_ite (msgOk_singleton ?_) msgOk_nil)
            (msgOk_ite (msgOk_singleton ?_) msgOk_nil)) msgOk_nil
          · simp only [strAppendAssoc]
            exact msgOk_head _ _ _ _ (by decide)
          · exact msgOk_head _ _ _ _ (by decide)

theorem msgOk_numPop (d : Dataset) : ∀ e ∈ validate_numerator_population d, msgOk e := by
  simp only [validate_numerator_population]
  refine msgOk_flatMap ?_
  intro x _
  obtain ⟨idx, row⟩ := x
  refine msgOk_append (msgOk_append ?_ ?_) ?_
  · exact msgOk_flatMap (fun col _ => msgOk_numericCell _ col _ _)
  · exact msgOk_flatMap (fun col _ => msgOk_numericCell _ col _ _)
  · exact msgOk_flatMap (fun entry _ => msgOk_pairCheck d.columns row (idx + 2) entry)

theorem msgOk_rollupSide (cols : List String) (row : Row) (rowNum : Nat)
    (componentCols : List String) (rollupCol rollupName kindWord : String)
    (hn : (rollupName.data.zip popChangedHead).any (fun ab => ab.1 != ab.2) = true) :
    ∀ e ∈ rollupSideCheck cols row rowNum componentCols rollupCol rollupName kindWord,
      msgOk e := by
  cases hg : getCell cols row rollupCol with
  | none => simp only [rollupSideCheck, hg]; exact msgOk_nil
  | some v =>
    cases hf : pyIntFloat v with
    | none => simp only [rollupSideCheck, hg, hf]; exact msgOk_nil
    | some rollupVal =>
      cases hs : sumComps cols row componentCols with
      | none => simp only [rollupSideCheck, hg, hf, hs]; exact msgOk_nil
      | some sp =>
        obtain ⟨componentSum, allPresent⟩ := sp
        simp only [rollupSideCheck, hg, hf, hs]
        refine msgOk_ite (msgOk_singleton ?_) msgOk_nil
        simp only [strAppendAssoc]
        exact msgOk_head _ _ _ _ hn

theorem msgOk_rollupSum (cols : List String) (row : Row) (rowNum : Nat)
    (componentNumCols componentPopCols : List String)
    (rollupNumCol rollupPopCol rollupName : String)
    (hn : (rollupName.data.zip popChangedHead).any (fun ab => ab.1 != ab.2) = true) :
    ∀ e ∈ validate_rollup_sum cols row rowNum componentNumCols componentPopCols
      rollupNumCol rollupPopCol rollupName, msgOk e :=
  msgOk_append (msgOk_rollupSide _ _ _ _ _ _ _ hn) (msgOk_rollupSide _ _ _ _ _ _ _ hn)

theorem msgOk_rollups (d : Dataset) (rt : Option String) :
    ∀ e ∈ validate_rollups d rt, msgOk e := by
  simp only [validate_rollups]
  refine msgOk_flatMap ?_
  intro x _
  obtain ⟨idx, row⟩ := x
  refine msgOk_ite ?_ (msgOk_ite ?_ msgOk_nil)
  · exact msgOk_append (msgOk_append
      (msgOk_rollupSum _ _ _ _ _ _ _ _ (by decide))
      (msgOk_rollupSum _ _ _ _ _ _ _ _ (by decide)))
      (msgOk_rollupSum _ _ _ _ _ _ _ _ (by decide))
  · exact msgOk_rollupSum _ _ _ _ _ _ _ _ (by decide)

theorem msgOk_cumulGo (cols : List String) (col : String) :
    ∀ (rows : List Row) (prev : Option Int) (idx : Nat),
      ∀ e ∈ cumulGo cols col prev idx rows, msgOk e := by
  intro rows
  induction rows with
  | nil => intro prev idx e he; simp [cumulGo] at he
  | cons row rest ih =>
    intro prev idx
    cases hg : getCell cols row col with
    | none =>
      rw [cumulGo_cons_skip rest prev idx hg]
      exact ih prev (idx + 1)
    | some v =>
      cases hf : pyIntFloat v with
      | none =>
        rw [cumulGo_cons_fail rest prev idx hg hf]
        exact ih prev (idx + 1)
      | some curr =>
        rw [cumulGo_cons_val rest prev idx hg hf]
        refine msgOk_append ?_ (ih (some curr) (idx + 1))
        cases prev with
        | none => exact msgOk_nil
        | some p =>
          refine msgOk_ite (msgOk_singleton ?_) msgOk_nil
          simp only [strAppendAssoc]
          exact msgOk_head _ _ _ _ (by decide)

theorem msgOk_cumulative (d : Dataset) : ∀ e ∈ validate_cumulative_data d, msgOk e := by
  simp only [validate_cumulative_data]
  exact msgOk_flatMap (fun col _ => msgOk_cumulGo d.columns col d.rows none 0)

theorem msgOk_dqCell (rowNum : Nat) (col : String) (cell : Option String) :
    ∀ e ∈ dataQualityCellErrors rowNum col cell, msgOk e := by
  cases cell with
  | none => simp only [dataQualityCellErrors]; exact msgOk_nil
  | some val =>
    simp only [dataQualityCellErrors]
    refine msgOk_append (msgOk_append (msgOk_ite (msgOk_singleton ?_) msgOk_nil)
      (msgOk_ite (msgOk_singleton ?_) msgOk_nil)) (msgOk_ite ?_ msgOk_nil)
    · simp only [strAppendAssoc]
      exact msgOk_head _ _ _ _ (by decide)
    · exact msgOk_lit _ _ _ (by decide)
    · refine msgOk_append (msgOk_append (msgOk_append (msgOk_append (msgOk_append
        (msgOk_ite (msgOk_singleton ?_) msgOk_nil)
        (msgOk_ite (msgOk_singleton ?_) msgOk_nil))
        (msgOk_ite (msgOk_singleton ?_) msgOk_nil))
        (msgOk_ite (msgOk_singleton ?_) msgOk_nil))
        (msgOk_ite (msgOk_singleton ?_) msgOk_nil))
        (msgOk_flatMap ?_)
      · simp only [strAppendAssoc]
        exact msgOk_head _ _ _ _ (by decide)
      · simp only [strAppendAssoc]
        exact msgOk_head _ _ _ _ (by decide)
      · simp only [strAppendAssoc]
        exact msgOk_head _ _ _ _ (by decide)
      · simp only [strAppendAssoc]
        exact msgOk_head _ _ _ _ (by decide)
      · simp only [strAppendAssoc]
        exact msgOk_head _ _ _ _ (by decide)
      · intro indicator _
        refine msgOk_ite (msgOk_singleton ?_) msgOk_nil
        simp only [strAppendAssoc]
        exact msgOk_head _ _ _ _ (by decide)

theorem msgOk_copyPasteGo (col : String) :
    ∀ (vals : List (Option Int)) (prev : Option Int) (run : Nat),
      ∀ e ∈ copyPasteGo col prev run vals, msgOk e := by
  intro vals
  induction vals with
  | nil => intro prev run e he; simp [copyPasteGo] at he
  | cons v rest ih =>
    intro prev run
    simp only [copyPasteGo]
    refine msgOk_ite (msgOk_ite (msgOk_singleton ?_) (ih v (run + 1))) (ih v 1)
    simp only [strAppendAssoc]
    exact msgOk_head _ _ _ _ (by decide)

theorem msgOk_copyPaste (d : Dataset) : ∀ e ∈ validate_copy_paste_errors d, msgOk e := by
  simp only [validate_copy_paste_errors]
  refine msgOk_ite msgOk_nil (msgOk_flatMap ?_)
  intro col _
  cases hr : d.rows with
  | nil => exact msgOk_nil
  | cons r rs => exact msgOk_copyPasteGo col _ _ 1

theorem msgOk_exactRate (cols popCols numCols : List String) (row : Row) (rowNum : Nat) :
    ∀ e ∈ exactRateErrors cols popCols numCols row rowNum, msgOk e := by
  simp only [exactRateErrors]
  refine msgOk_flatMap ?_
  intro numCol _
  cases hf : findPopColFor popCols (baseNameOf numCol) with
  | none => simp only [hf]; exact msgOk_nil
  | some popCol =>
    simp only [hf]
    refine msgOk_ite ?_ msgOk_nil
    cases h1 : getCell cols row numCol with
    | none =>
      cases h2 : getCell cols row popCol with
      | none => simp only [h1, h2]; exact msgOk_nil
      | some pv => simp only [h1, h2]; exact msgOk_nil
    | some nv =>
      cases h2 : getCell cols row popCol with
      | none => simp only [h1, h2]; exact msgOk_nil
      | some pv =>
        simp only [h1, h2]
        cases h3 : pyIntFloat nv with
        | none =>
          cases h4 : pyIntFloat pv with
          | none => simp only [h3, h4]; exact msgOk_nil
          | some pop => simp only [h3, h4]; exact msgOk_nil
        | some num =>
          cases h4 : pyIntFloat pv with
          | none => simp only [h3, h4]; exact msgOk_nil
          | some pop =>
            simp only [h3, h4]
            refine msgOk_ite (msgOk_singleton ?_) msgOk_nil
            simp only [strAppendAssoc]
            exact msgOk_head _ _ _ _ (by decide)

theorem msgOk_suspicious (d : Dataset) : ∀ e ∈ validate_suspicious_patterns d, msgOk e := by
  simp only [validate_suspicious_patterns]
  refine msgOk_append (msgOk_flatMap ?_) ?_
  · intro x _
    obtain ⟨idx, row⟩ := x
    exact msgOk_exactRate d.columns (popColsOf d) (numColsOf d) row (idx + 2)
  · cases hrs : roundScan d (true, 0) (popColsOf d) with
    | mk allRound popCount =>
      simp only [hrs]
      exact msgOk_ite (msgOk_singleton (msgOk_lit _ _ _ (by decide))) msgOk_nil

theorem msgOk_zeroPop (cols popCols numCols : List String) (row : Row) (rowNum : Nat) :
    ∀ e ∈ zeroPopErrors cols popCols numCols row rowNum, msgOk e := by
  simp only [zeroPopErrors]
  refine msgOk_flatMap ?_
  intro numCol _
  cases hf : findPopColFor popCols (baseNameOf numCol) with
  | none => simp only [hf]; exact msgOk_nil
  | some popCol =>
    simp only [hf]
    refine msgOk_ite ?_ msgOk_nil
    cases h1 : getCell cols row numCol with
    | none =>
      cases h2 : getCell cols row popCol with
      | none => simp only [h1, h2]; exact msgOk_nil
      | some pv => simp only [h1, h2]; exact msgOk_nil
    | some nv =>
      cases h2 : getCell cols row popCol with
      | none => simp only [h1, h2]; exact msgOk_nil
      | some pv =>
        simp only [h1, h2]
        cases h3 : pyIntFloat nv with
        | none =>
          cases h4 : pyIntFloat pv with
          | none => simp only [h3, h4]; exact msgOk_nil
          | some pop => simp only [h3, h4]; exact msgOk_nil
        | some num =>
          cases h4 : pyIntFloat pv with
          | none => simp only [h3, h4]; exact msgOk_nil
          | some pop =>
            simp only [h3, h4]
            refine msgOk_ite (msgOk_singleton ?_) msgOk_nil
            simp only [strAppendAssoc]
            exact msgOk_head _ _ _ _ (by decide)

theorem msgOk_allZero (cols numCols : List String) (row : Row) (rowNum : Nat) :
    ∀ e ∈ allZeroRowErrors cols numCols row rowNum, msgOk e := by
  simp only [allZeroRowErrors]
  refine msgOk_ite (msgOk_singleton ?_) msgOk_nil
  simp only [strAppendAssoc]
  exact msgOk_head _ _ _ _ (by decide)

theorem msgOk_zeroLogic (d : Dataset) : ∀ e ∈ validate_zero_logic d, msgOk e := by
  simp only [validate_zero_logic]
  refine msgOk_flatMap ?_
  intro x _
  obtain ⟨idx, row⟩ := x
  exact msgOk_append (msgOk_zeroPop d.columns (popColsOf d) (numColsOf d) row (idx + 2))
    (msgOk_allZero d.columns (numColsOf d) row (idx + 2))

theorem msgOk_seasonMismatch (d : Dataset) (cfg : Config) :
    ∀ e ∈ validate_season_mismatch d cfg, msgOk e := by
  cases hm : mismatchSeasonCol d with
  | none => simp only [validate_season_mismatch, hm]; exact msgOk_nil
  | some seasonCol =>
    simp only [validate_season_mismatch, hm]
    refine msgOk_ite ?_ msgOk_nil
    cases hh : d.rows.head? with
    | none => simp only [hh]; exact msgOk_nil
    | some row =>
      simp only [hh]
      cases hc : getCell d.columns row seasonCol with
      | none => simp only [hc]; exact msgOk_nil
      | some raw =>
        simp only [hc]
        refine msgOk_ite msgOk_nil (msgOk_ite (msgOk_singleton ?_) msgOk_nil)
        simp only [strAppendAssoc]
        exact msgOk_head _ _ _ _ (by decide)

theorem msgOk_dataQuality (d : Dataset) (cfg2 : Config) :
    ∀ e ∈ validate_data_quality d cfg2, msgOk e := by
  simp only [validate_data_quality]
  refine msgOk_append (msgOk_append (msgOk_append (msgOk_append
    (msgOk_flatMap ?_) (msgOk_copyPaste d)) (msgOk_suspicious d))
    (msgOk_zeroLogic d)) (msgOk_seasonMismatch d cfg2)
  intro x _
  obtain ⟨idx, row⟩ := x
  exact msgOk_flatMap (fun col _ => msgOk_dqCell (idx + 2) col _)

/-- **C10.** No validation run ever emits a population-change error: every
error produced by the orchestrator, on every dataset, filename and pair of
configuration reads, has a message that does not start with
`Population changed` — the head every message of
`validate_population_stability` carries.  The stability check is defined in
the source but invoked by no orchestrator path, so population swings of any
magnitude between consecutive rows yield no such error. -/
theorem population_change_never_reported (d : Dataset) (fn : String) (cfg1 cfg2 : Config) :
    ∀ e ∈ (validate_prism_file d fn cfg1 cfg2).errors,
      popChangedHead.isPrefixOf e.message.data = false := by
  simp only [validate_prism_file]
  by_cases hemp : dsEmpty d = true
  · simp only [hemp, if_true]
    exact msgOk_singleton (msgOk_lit _ _ _ (by decide))
  · simp only [hemp, if_false]
    cases detect_template_type d with
    | none => exact msgOk_singleton (msgOk_lit _ _ _ (by decide))
    | some rt =>
      refine msgOk_append (msgOk_append (msgOk_append (msgOk_append (msgOk_append
        (msgOk_append (msgOk_filename fn (some rt) d cfg1)
          (msgOk_structure d (some rt)))
          (msgOk_integrity d (some rt)))
          (msgOk_numPop d))
          (msgOk_rollups d (some rt)))
          (msgOk_cumulative d))
          (msgOk_dataQuality d cfg2)

/-- **C10 witness.**  The theorem applied to a concrete run: a dataset with a
`Season` header and no rows fails with the single `File is empty` error, and
that error's message indeed does not start with `Population changed`. -/
theorem population_change_never_reported_witness :
    (⟨0, "file", "File is empty"⟩ : VError) ∈
      (validate_prism_file ⟨["Season"], []⟩ "x.csv" cfgJan2026 cfgJan2026).errors ∧
    popChangedHead.isPrefixOf
      (⟨0, "file", "File is empty"⟩ : VError).message.data = false :=
  ⟨by decide,
   population_change_never_reported ⟨["Season"], []⟩ "x.csv" cfgJan2026 cfgJan2026
     ⟨0, "file", "File is empty"⟩ (by decide)⟩
